import Mathlib

/-!
# badhal: the ILI9341 framebuffer transfer pipeline

A shallow embedding of the display driver (`inc/ili9341.h`) and of the DMA and SPI
drivers it is built on (`inc/driver/dma.h`, `inc/driver/spi.h`).

* Peripheral registers are a register file `Reg → Nat`; every store the C code makes to a
  peripheral register is appended to a trace of events, so orderings can be stated.
* A busy-wait loop `while (REG & MASK);` (or its negation) is one `Event.wait`: the
  machine continues in the state of the loop's last read, where the polled bit has
  the value that ends the loop.
* `ASSERT(x)` with `x` false enters `assert_failed`, which never returns
  (`while (1);`): the outcome `Outcome.halted`.
* C integer arithmetic: `uint16_t` operands are promoted to 32-bit `int`; conversions
  back are written `u16`, `u8`, `u32`, and an `int` product is wrapped by `i32`.
-/

namespace Badhal

/-! ## Machine integers -/

/-- Conversion of an `int` value to `uint16_t`. -/
def u16 (i : Int) : Nat := (i % 65536).toNat

/-- Conversion of an `int` value to `uint8_t`. -/
def u8 (i : Int) : Nat := (i % 256).toNat

/-- Conversion to `uint32_t`. -/
def u32 (n : Nat) : Nat := n % 4294967296

/-- A 32-bit two's complement `int` result (the target is a 32-bit Cortex-M). -/
def i32 (i : Int) : Int := (i + 2147483648) % 4294967296 - 2147483648

/-- The complement `~(mask)` of a 32-bit register mask. -/
def bit_not32 (mask : Nat) : Nat := 4294967295 ^^^ mask

def UINT16_MAX : Int := 65535

/-! ## Peripherals -/

/-- The two DMA controllers of `dma.h` (`DMA1`, `DMA2`). -/
inductive DMA_typedef_t
  | DMA1
  | DMA2
  deriving DecidableEq, Repr

/-- The enumeration `DMA_stream_num_t`: `DMA_STREAM0` .. `DMA_STREAM7`. -/
abbrev DMA_stream_num_t := Fin 8

def DMA_STREAM2 : DMA_stream_num_t := 2

/-- GPIO ports named in `main.c` and `ili9341.h`. -/
inductive GPIO_port
  | GPIOA
  | GPIOB
  deriving DecidableEq, Repr

/-- The peripheral registers the drivers access: the fields of `SPI_typedef_t` for
`SPI1` (the only instance `spi.h` defines), of `DMA_typedef_t` and of
`DMA_stream_typedef_t`, and the fields of `USART_typedef_t` for `USART1` (the only
instance `uart.h` defines). -/
inductive Reg
  | SPI1_CR1
  | SPI1_CR2
  | SPI1_SR
  | SPI1_DR
  | LISR (d : DMA_typedef_t)
  | HISR (d : DMA_typedef_t)
  | LIFCR (d : DMA_typedef_t)
  | HIFCR (d : DMA_typedef_t)
  | CR (d : DMA_typedef_t) (s : DMA_stream_num_t)
  | NDTR (d : DMA_typedef_t) (s : DMA_stream_num_t)
  | PAR (d : DMA_typedef_t) (s : DMA_stream_num_t)
  | M0AR (d : DMA_typedef_t) (s : DMA_stream_num_t)
  | M1AR (d : DMA_typedef_t) (s : DMA_stream_num_t)
  | FCR (d : DMA_typedef_t) (s : DMA_stream_num_t)
  | USART1_SR
  | USART1_DR
  | USART1_BRR
  | USART1_CR1
  | USART1_CR2
  | USART1_CR3
  | USART1_GTPR
  deriving DecidableEq, Repr

/-- Interrupt lines handed to `nvic_enable_interrupt`. -/
inductive NVIC_irq
  | NVIC_DMA2_STREAM2_INTR
  deriving DecidableEq, Repr

/-- One hardware access of the program, in program order. -/
inductive Event
  | write (r : Reg) (v : Nat)
  | wait (r : Reg) (mask : Nat) (until_set : Bool)
  | pin_set (port : GPIO_port) (pin : Nat)
  | pin_reset (port : GPIO_port) (pin : Nat)
  | nvic_enable (irq : NVIC_irq)
  deriving DecidableEq, Repr

/-- The machine: register contents, output level of the GPIO pins, and the trace of
accesses made so far. -/
structure Machine where
  regs : Reg → Nat
  pins : GPIO_port → Nat → Bool
  trace : List Event

/-- Result of a call that contains `ASSERT`s: it returns, or `assert_failed(line, file)`
was entered in state `m` and never returns. -/
inductive Outcome
  | returned (m : Machine)
  | halted (line : Nat) (m : Machine)

/-- The machine after reset: all registers zero, all pins low, nothing done yet. -/
def Machine.reset : Machine :=
  { regs := fun _ => 0, pins := fun _ _ => false, trace := [] }

/-- Value a load from register `r` returns. The flag-clear registers `LIFCR` and
`HIFCR` are write-only and read as zero. -/
def reg_read (r : Reg) (m : Machine) : Nat :=
  match r with
  | Reg.LIFCR _ => 0
  | Reg.HIFCR _ => 0
  | _ => m.regs r

/-- A store `r = v`. A store to a flag-clear register clears the status flags whose
bits are set in `v` (write 1 to clear) and stores nothing. -/
def reg_write (r : Reg) (v : Nat) (m : Machine) : Machine :=
  match r with
  | Reg.LIFCR d =>
    { m with regs := Function.update m.regs (Reg.LISR d) (m.regs (Reg.LISR d) &&& bit_not32 v),
             trace := m.trace ++ [Event.write r v] }
  | Reg.HIFCR d =>
    { m with regs := Function.update m.regs (Reg.HISR d) (m.regs (Reg.HISR d) &&& bit_not32 v),
             trace := m.trace ++ [Event.write r v] }
  | _ => { m with regs := Function.update m.regs r v, trace := m.trace ++ [Event.write r v] }

/-- The loop `while (!(r & mask));` (`until_set = true`) or `while (r & mask);`
(`until_set = false`): on exit the polled bits have the awaited value. -/
def busy_wait (r : Reg) (mask : Nat) (until_set : Bool) (m : Machine) : Machine :=
  { m with regs := Function.update m.regs r
             (if until_set then m.regs r ||| mask else m.regs r &&& bit_not32 mask),
           trace := m.trace ++ [Event.wait r mask until_set] }

/-- Modelled from the spec: `io_pin_set` of `io.h`, which is not among the sources
(the GPIO collaborator `set_line(port, pin)`): drives the pin high. -/
def io_pin_set (port : GPIO_port) (pin : Nat) (m : Machine) : Machine :=
  { m with pins := Function.update m.pins port (Function.update (m.pins port) pin true),
           trace := m.trace ++ [Event.pin_set port pin] }

/-- Modelled from the spec: `io_pin_reset` of `io.h`, which is not among the sources
(the GPIO collaborator `clear_line(port, pin)`): drives the pin low. -/
def io_pin_reset (port : GPIO_port) (pin : Nat) (m : Machine) : Machine :=
  { m with pins := Function.update m.pins port (Function.update (m.pins port) pin false),
           trace := m.trace ++ [Event.pin_reset port pin] }

/-- Modelled from the spec: `nvic_enable_interrupt` of `nvic.h`, which is not among the
sources (the interrupt controller collaborator `enable_interrupt(source_id)`). -/
def nvic_enable_interrupt (irq : NVIC_irq) (m : Machine) : Machine :=
  { m with trace := m.trace ++ [Event.nvic_enable irq] }

/-! ## spi.h -/

def SPI_FEATURE_MASTER : Nat := 0x4
def SPI_FEATURE_PRECALER_div_2 : Nat := 0x0
def SPI_FEATURE_FORMAT_MSB : Nat := 0x0
def SPI_FEATURE_SOFTWARE_CS : Nat := 0x300
def SPI_FEATURE_FRAME_FORMAT_8bit : Nat := 0x0
def SPI_FEATURE_FRAME_FORMAT_16bit : Nat := 0x800
def SPI_FEATURE_BIDIOE_TX_ONLY : Nat := 0x4000
def SPI_FEATURE_BIDIRECTIONAL : Nat := 0x8000
def SPI_MISC_ENABLE_DMA_TX : Nat := 0x2

def SPI1_BASE : Nat := 0x40013000
def SPI_CR1_SPIEN_MASK : Nat := 0x40
def SPI_SR_BSY_MASK : Nat := 0x80

/-- Address of `SPI1->DR`: the fourth 32-bit field of `SPI_typedef_t`. -/
def SPI1_DR_ADDR : Nat := SPI1_BASE + 12

def spi_enable_misc (misc : Nat) (m : Machine) : Machine :=
  reg_write Reg.SPI1_CR2 (reg_read Reg.SPI1_CR2 m ||| misc) m

def spi_setup (features misc interrupts : Nat) (m : Machine) : Machine :=
  let m := reg_write Reg.SPI1_CR1 features m
  reg_write Reg.SPI1_CR2 (misc ||| interrupts) m

def spi_enable (m : Machine) : Machine :=
  let m := reg_write Reg.SPI1_CR1 (reg_read Reg.SPI1_CR1 m ||| SPI_CR1_SPIEN_MASK) m
  let m := busy_wait Reg.SPI1_CR1 SPI_CR1_SPIEN_MASK true m
  busy_wait Reg.SPI1_SR SPI_SR_BSY_MASK false m

def spi_disable (m : Machine) : Machine :=
  let m := busy_wait Reg.SPI1_SR SPI_SR_BSY_MASK false m
  let m := reg_write Reg.SPI1_CR1 (reg_read Reg.SPI1_CR1 m &&& bit_not32 SPI_CR1_SPIEN_MASK) m
  busy_wait Reg.SPI1_CR1 SPI_CR1_SPIEN_MASK false m

def spi_transmit_only (data : Nat) (m : Machine) : Machine :=
  let m := reg_write Reg.SPI1_DR data m
  let m := busy_wait Reg.SPI1_SR SPI_SR_BSY_MASK true m
  busy_wait Reg.SPI1_SR SPI_SR_BSY_MASK false m

/-! ## uart.h -/

def USART_SR_TC : Nat := 0x40
def USART_SR_TXE : Nat := 0x80

def uart_putchar_polling (ch : Nat) (m : Machine) : Machine :=
  let m := busy_wait Reg.USART1_SR USART_SR_TXE true m
  reg_write Reg.USART1_DR ch m

/-- The loop `while (*str) { uart_putchar_polling(USART, *str); str++; }`; `str` lists the
characters of the C string, the end of the list standing for its terminating zero. -/
def uart_send_str_polling : List Nat → Machine → Machine
  | [], m => m
  | c :: cs, m => if c = 0 then m else uart_send_str_polling cs (uart_putchar_polling c m)

/-- The loop `do { buff[idx] = (value%10)+'0'; value /= 10; idx++; } while (value != 0);`
of `uart_send_dec_unsigned_32bit`, `idx` being a `uint8_t`. A slot of `buff` is `none`
until it is stored to. The result is the final `idx` and `buff`, or `none` when a store
falls outside `buff`. -/
def dec_digits_loop (value idx : Nat) (buff : List (Option Nat)) :
    Option (Nat × List (Option Nat)) :=
  if idx < buff.length then
    let buff := buff.set idx (some (value % 10 + 48))
    let idx := (idx + 1) % 256
    if value / 10 ≠ 0 then dec_digits_loop (value / 10) idx buff else some (idx, buff)
  else none
termination_by value
decreasing_by omega

/-- The loop `for (; idx != 0xFF; idx--) uart_putchar_polling(USART, buff[idx]);` of
`uart_send_dec_unsigned_32bit`, `idx` being a `uint8_t`: decrementing 0 gives 0xFF,
which ends the loop. The result is `none` when a load falls outside `buff` or reads a
slot that was never stored to. -/
def dec_print_loop : Nat → List (Option Nat) → Machine → Option Machine
  | 0, buff, m =>
    match buff[0]? with
    | some (some ch) => some (uart_putchar_polling ch m)
    | _ => none
  | k + 1, buff, m =>
    if k + 1 = 0xFF then some m
    else
      match buff[k + 1]? with
      | some (some ch) => dec_print_loop k buff (uart_putchar_polling ch m)
      | _ => none

/-- `uart_send_dec_unsigned_32bit(USART1, value)`: `char buff[11]` starts with no slot
stored; the result is `none` when `buff` is indexed out of range or read before being
stored to. -/
def uart_send_dec_unsigned_32bit (value : Nat) (m : Machine) : Option Machine :=
  match dec_digits_loop value 0 (List.replicate 11 none) with
  | none => none
  | some (idx, buff) =>
    let idx := (idx + 255) % 256
    match dec_print_loop idx buff m with
    | none => none
    | some m => some (uart_send_str_polling [13, 10] m)

/-! ## dma.h -/

def DMA_enable_TC : Nat := 0x10

def DMA_clear_FE : Nat := 0x1
def DMA_clear_DME : Nat := 0x4
def DMA_clear_TE : Nat := 0x8
def DMA_clear_HT : Nat := 0x10
def DMA_clear_TC : Nat := 0x20
def DMA_clear_all : Nat :=
  DMA_clear_DME ||| DMA_clear_FE ||| DMA_clear_HT ||| DMA_clear_TE ||| DMA_clear_TC

def DMA_feature_DIR_mem_to_periph : Nat := 0x40
def DMA_feature_MINC : Nat := 0x400
def DMA_feature_PSIZE_half_word : Nat := 0x800
def DMA_feature_MSIZE_half_word : Nat := 0x2000
def DMA_feature_MSIZE_word : Nat := 0x4000
def DMA_feature_MBURST_incr4 : Nat := 0x800000
def DMA_channel2 : Nat := 2 <<< 25
def DMA_FIFO_THRESHOLD_4_out_4 : Nat := 0x3
def DMA_FIFO_ENABLE_FIFO : Nat := 0x4
def CR_EN_MASK : Nat := 0x1

def dma_clear_interrupts (DMA : DMA_typedef_t) (stream : DMA_stream_num_t) (interrupts : Nat)
    (m : Machine) : Machine :=
  let shift : List Nat := [0, 6, 16, 22]
  if stream.val ≤ 3 then
    reg_write (Reg.LIFCR DMA) (u32 (interrupts <<< shift.getD stream.val 0)) m
  else
    reg_write (Reg.HIFCR DMA) (u32 (interrupts <<< shift.getD (stream.val - 4) 0)) m

def dma_stream_n_poll_ready (DMA : DMA_typedef_t) (stream : DMA_stream_num_t) (m : Machine) : Nat :=
  if reg_read (Reg.NDTR DMA stream) m = 0 then 1 else 0

def dma_start_transfer (DMA : DMA_typedef_t) (stream : DMA_stream_num_t) (m : Machine) : Machine :=
  reg_write (Reg.CR DMA stream) (reg_read (Reg.CR DMA stream) m ||| CR_EN_MASK) m

def dma_setup_transfer (DMA : DMA_typedef_t) (stream : DMA_stream_num_t) (channel mem bufflen periph
    interrupts features fifo_settings : Nat) (m : Machine) : Machine :=
  let m := reg_write (Reg.CR DMA stream) (reg_read (Reg.CR DMA stream) m &&& bit_not32 CR_EN_MASK) m
  let m := busy_wait (Reg.CR DMA stream) CR_EN_MASK false m
  let m := dma_clear_interrupts DMA stream DMA_clear_all m
  let m := reg_write (Reg.PAR DMA stream) (u32 periph) m
  let m := reg_write (Reg.M0AR DMA stream) (u32 mem) m
  let m := reg_write (Reg.NDTR DMA stream) bufflen m
  let m := reg_write (Reg.CR DMA stream) (interrupts ||| features ||| channel) m
  reg_write (Reg.FCR DMA stream) fifo_settings m

/-! ## ili9341.h -/

def ILI9341_SPI_FEATURES_CMD : Nat :=
  SPI_FEATURE_MASTER ||| SPI_FEATURE_PRECALER_div_2 ||| SPI_FEATURE_SOFTWARE_CS |||
  SPI_FEATURE_BIDIOE_TX_ONLY ||| SPI_FEATURE_BIDIRECTIONAL ||| SPI_FEATURE_FRAME_FORMAT_8bit

def ILI9341_SPI_FEATURES_DMA : Nat :=
  SPI_FEATURE_MASTER ||| SPI_FEATURE_PRECALER_div_2 ||| SPI_FEATURE_SOFTWARE_CS |||
  SPI_FEATURE_BIDIOE_TX_ONLY ||| SPI_FEATURE_BIDIRECTIONAL |||
  SPI_FEATURE_FRAME_FORMAT_16bit ||| SPI_FEATURE_FORMAT_MSB

def ILI9341_GPIO_PORT : GPIO_port := GPIO_port.GPIOB
def ILI9341_RESET_PIN : Nat := 8
def ILI9341_DC_PIN : Nat := 7
def ILI9341_CS_PIN : Nat := 6

def ILI9341_DMA_STREAM : DMA_stream_num_t := DMA_STREAM2
def ILI9341_DMA : DMA_typedef_t := DMA_typedef_t.DMA2
def ILI9341_DMA_CHANNEL : Nat := DMA_channel2
def ILI9341_DMA_SETTINGS_FB : Nat :=
  DMA_feature_DIR_mem_to_periph ||| DMA_feature_MINC ||| DMA_feature_PSIZE_half_word |||
  DMA_feature_MSIZE_word ||| DMA_feature_MBURST_incr4
def ILI9341_DMA_FIFO_SETTINGS_FB : Nat := DMA_FIFO_ENABLE_FIFO ||| DMA_FIFO_THRESHOLD_4_out_4
def ILI9341_NVIC_DMA_INTERRUPT : NVIC_irq := NVIC_irq.NVIC_DMA2_STREAM2_INTR

def ILI9341_LCD_HEIGHT : Int := 320
def ILI9341_LCD_WIDTH : Int := 240

def ili9341_spi_fb_transmition_mode (m : Machine) : Machine :=
  let m := spi_disable m
  let m := spi_setup ILI9341_SPI_FEATURES_DMA 0 0 m
  spi_enable m

def ili9341_spi_control_transmition_mode (m : Machine) : Machine :=
  let m := spi_disable m
  let m := spi_setup ILI9341_SPI_FEATURES_CMD 0 0 m
  spi_enable m

def ili9341_select (m : Machine) : Machine := io_pin_reset ILI9341_GPIO_PORT ILI9341_CS_PIN m
def ili9341_deselect (m : Machine) : Machine := io_pin_set ILI9341_GPIO_PORT ILI9341_CS_PIN m
def ili9341_dc_command (m : Machine) : Machine := io_pin_reset ILI9341_GPIO_PORT ILI9341_DC_PIN m
def ili9341_dc_data (m : Machine) : Machine := io_pin_set ILI9341_GPIO_PORT ILI9341_DC_PIN m

/-- The user callback `dma2_stream2_tc` (built with `CRAP_ILI9341_INCLUDE_ISRS`). -/
def dma2_stream2_tc (_offset : Nat) (m : Machine) : Machine :=
  let m := ili9341_deselect m
  ili9341_spi_control_transmition_mode m

def ili9341_spi_start_dma (m : Machine) : Machine :=
  let m := dma_start_transfer ILI9341_DMA ILI9341_DMA_STREAM m
  spi_enable_misc SPI_MISC_ENABLE_DMA_TX m

/-- The parameter is a `uint8_t`: the argument is converted on the call. -/
def ili9341_send_cmd (cmd : Int) (m : Machine) : Machine :=
  let m := ili9341_select m
  let m := ili9341_dc_command m
  let m := spi_transmit_only (u8 cmd) m
  ili9341_deselect m

/-- The parameter is a `uint8_t`: the argument is converted on the call. -/
def ili9341_send_data (data : Int) (m : Machine) : Machine :=
  let m := ili9341_select m
  let m := ili9341_dc_data m
  let m := spi_transmit_only (u8 data) m
  ili9341_deselect m

def ili9341_poll_dma_ready (m : Machine) : Nat :=
  dma_stream_n_poll_ready ILI9341_DMA ILI9341_DMA_STREAM m

/-- The loop `for (uint32_t i = 0; i < (240*320); i++)` of `ili9341_fill`, whose body
does not use `i`: the first argument counts the iterations still to run. -/
def ili9341_fill_loop : Nat → Nat → Machine → Machine
  | 0, _, m => m
  | n + 1, color, m =>
    let m := spi_transmit_only (u8 ((color : Int) >>> (8 : Nat))) m
    let m := spi_transmit_only (u8 ((color &&& 0xFF : Nat) : Int)) m
    ili9341_fill_loop n color m

def ili9341_fill (color : Nat) (m : Machine) : Machine :=
  let m := ili9341_send_cmd 0x2A m
  let m := ili9341_send_data 0x0 m
  let m := ili9341_send_data 0x00 m
  let m := ili9341_send_data 0 m
  let m := ili9341_send_data 0xEF m
  let m := ili9341_send_cmd 0x2B m
  let m := ili9341_send_data 0x0 m
  let m := ili9341_send_data 0x0 m
  let m := ili9341_send_data 0x1 m
  let m := ili9341_send_data 0x3F m
  let m := ili9341_send_cmd 0x2C m
  let m := ili9341_select m
  let m := ili9341_dc_data m
  let m := ili9341_fill_loop (240 * 320) color m
  ili9341_deselect m

/-- `ili9341_fb_dma_fill` as built by `main.c` (`CRAP_ILI9431_USE_ASSERT` defined, so
`ILI9341_ASSERT(x)` is `ASSERT(x)`); the arguments are `uint16_t` values and `fb` an
address. The assertions are on lines 338 and 339 of `ili9341.h`. -/
def ili9341_fb_dma_fill (fb x_start y_start x_end y_end : Nat) (m : Machine) : Outcome :=
  let width : Nat := u16 (((x_end : Int) - (x_start : Int)) + 1)
  let length : Nat := u16 (((y_end : Int) - (y_start : Int)) + 1)
  if ¬ (i32 ((width : Int) * (length : Int)) < UINT16_MAX) then Outcome.halted 338 m
  else if ¬ ((x_start : Int) < ILI9341_LCD_WIDTH ∧ (x_end : Int) < ILI9341_LCD_WIDTH ∧
      (y_start : Int) < ILI9341_LCD_HEIGHT ∧ (y_end : Int) < ILI9341_LCD_HEIGHT) then
    Outcome.halted 339 m
  else
    let buff_len : Nat := u16 (i32 ((width : Int) * (length : Int)))
    let m := nvic_enable_interrupt ILI9341_NVIC_DMA_INTERRUPT m
    let m := ili9341_send_cmd 0x2A m
    let m := ili9341_send_data ((x_start : Int) >>> (8 : Nat)) m
    let m := ili9341_send_data ((x_start &&& 0xFF : Nat) : Int) m
    let m := ili9341_send_data ((x_end : Int) >>> (8 : Nat)) m
    let m := ili9341_send_data ((x_end &&& 0xFF : Nat) : Int) m
    let m := ili9341_send_cmd 0x2B m
    let m := ili9341_send_data ((y_start : Int) >>> (8 : Nat)) m
    let m := ili9341_send_data ((y_start &&& 0xFF : Nat) : Int) m
    let m := ili9341_send_data ((y_end : Int) >>> (8 : Nat)) m
    let m := ili9341_send_data ((y_end &&& 0xFF : Nat) : Int) m
    let m := ili9341_send_cmd 0x2C m
    let m := ili9341_spi_fb_transmition_mode m
    let m := dma_setup_transfer ILI9341_DMA ILI9341_DMA_STREAM ILI9341_DMA_CHANNEL fb buff_len
      SPI1_DR_ADDR DMA_enable_TC ILI9341_DMA_SETTINGS_FB ILI9341_DMA_FIFO_SETTINGS_FB m
    let m := ili9341_select m
    let m := ili9341_dc_data m
    Outcome.returned (ili9341_spi_start_dma m)

/-- `ili9341_fb_dma_fill_centered` as built by `main.c`; its one assertion is on
line 374 of `ili9341.h`. -/
def ili9341_fb_dma_fill_centered (fb width height : Nat) (m : Machine) : Outcome :=
  let x_start : Nat := u16 ((ILI9341_LCD_WIDTH - (width : Int)) >>> (1 : Nat))
  let x_end : Nat := u16 ((x_start : Int) + (width : Int) - 1)
  let y_start : Nat := u16 ((ILI9341_LCD_HEIGHT - (height : Int)) >>> (1 : Nat))
  let y_end : Nat := u16 ((y_start : Int) + (height : Int) - 1)
  if ¬ (i32 ((width : Int) * (height : Int)) < UINT16_MAX) then Outcome.halted 374 m
  else
    let buff_len : Nat := u16 (i32 ((width : Int) * (height : Int)))
    let m := nvic_enable_interrupt ILI9341_NVIC_DMA_INTERRUPT m
    let m := ili9341_send_cmd 0x2A m
    let m := ili9341_send_data ((x_start : Int) >>> (8 : Nat)) m
    let m := ili9341_send_data ((x_start &&& 0xFF : Nat) : Int) m
    let m := ili9341_send_data ((x_end : Int) >>> (8 : Nat)) m
    let m := ili9341_send_data ((x_end &&& 0xFF : Nat) : Int) m
    let m := ili9341_send_cmd 0x2B m
    let m := ili9341_send_data ((y_start : Int) >>> (8 : Nat)) m
    let m := ili9341_send_data ((y_start &&& 0xFF : Nat) : Int) m
    let m := ili9341_send_data ((y_end : Int) >>> (8 : Nat)) m
    let m := ili9341_send_data ((y_end &&& 0xFF : Nat) : Int) m
    let m := ili9341_send_cmd 0x2C m
    let m := ili9341_spi_fb_transmition_mode m
    let m := dma_setup_transfer ILI9341_DMA ILI9341_DMA_STREAM ILI9341_DMA_CHANNEL fb buff_len
      SPI1_DR_ADDR DMA_enable_TC ILI9341_DMA_SETTINGS_FB ILI9341_DMA_FIFO_SETTINGS_FB m
    let m := ili9341_select m
    let m := ili9341_dc_data m
    Outcome.returned (ili9341_spi_start_dma m)

/-! ## The DMA2 stream 2 interrupt handler (dma.h) -/

def DMA_Stream2_frame_error : Nat := 1 <<< 16
def DMA_Stream2_direct_mode_error : Nat := 1 <<< 18
def DMA_Stream2_transfer_error : Nat := 1 <<< 19
def DMA_Stream2_half_transfer : Nat := 1 <<< 20
def DMA_Stream2_transfer_complete : Nat := 1 <<< 21

/-- The user callbacks compiled into `dma2_stream2_isr`: a field is `some f` when the
matching `CRAP_DMA_DMA2_STREAM2_USE_FE`, `_DME`, `_TE`, `_TC`, `_HT` is defined and `f`
is the callback the user supplies, `none` when the call is compiled out. -/
structure DMA2_Stream2_callbacks where
  fe : Option (Nat → Machine → Machine)
  dme : Option (Nat → Machine → Machine)
  te : Option (Nat → Machine → Machine)
  tc : Option (Nat → Machine → Machine)
  ht : Option (Nat → Machine → Machine)

/-- The guarded call `cb(DMA2->streams[2].NDTR)`; the parameter is a `uint16_t`. -/
def isr_callback (cb : Option (Nat → Machine → Machine)) (m : Machine) : Machine :=
  match cb with
  | some f => f (u16 (reg_read (Reg.NDTR DMA_typedef_t.DMA2 2) m)) m
  | none => m

/-- One of the five blocks of `dma2_stream2_isr`:
`if (DMA2->LISR & flag) { DMA2->LIFCR |= flag; cb(DMA2->streams[2].NDTR); }`,
the call being present only when its `USE` switch is defined. -/
def isr_branch (flag : Nat) (cb : Option (Nat → Machine → Machine)) (m : Machine) : Machine :=
  if reg_read (Reg.LISR DMA_typedef_t.DMA2) m &&& flag ≠ 0 then
    let m := reg_write (Reg.LIFCR DMA_typedef_t.DMA2)
      (reg_read (Reg.LIFCR DMA_typedef_t.DMA2) m ||| flag) m
    isr_callback cb m
  else m

def dma2_stream2_isr (cb : DMA2_Stream2_callbacks) (m : Machine) : Machine :=
  let m := isr_branch DMA_Stream2_frame_error cb.fe m
  let m := isr_branch DMA_Stream2_direct_mode_error cb.dme m
  let m := isr_branch DMA_Stream2_transfer_error cb.te m
  let m := isr_branch DMA_Stream2_transfer_complete cb.tc m
  isr_branch DMA_Stream2_half_transfer cb.ht m

/-- The handler as `ili9341.h` builds it with `CRAP_ILI9341_INCLUDE_ISRS`: only
`CRAP_DMA_DMA2_STREAM2_USE_TC` is defined, and the callback is the driver's own. -/
def ili9341_callbacks : DMA2_Stream2_callbacks :=
  { fe := none, dme := none, te := none, tc := some dma2_stream2_tc, ht := none }

/-- The machine after reset with the transfer-complete flag of DMA2 stream 2 raised, as
at the end of a transfer. -/
def Machine.transfer_complete : Machine :=
  { regs := fun r =>
      match r with
      | Reg.LISR DMA_typedef_t.DMA2 => DMA_Stream2_transfer_complete
      | _ => 0,
    pins := fun _ _ => false,
    trace := [] }

/-! ## Auxiliary definitions for the statements -/

/-- The statements of `ili9341_fb_dma_fill` from line 341 to its end, for given window
coordinates and element count; lines 376-399 of `ili9341_fb_dma_fill_centered` are the
same statements (lemmas `fb_dma_fill_returned`, `fb_dma_fill_centered_returned`). -/
def ili9341_fb_dma_body (fb x_start y_start x_end y_end buff_len : Nat) (m : Machine) : Machine :=
  let m := nvic_enable_interrupt ILI9341_NVIC_DMA_INTERRUPT m
  let m := ili9341_send_cmd 0x2A m
  let m := ili9341_send_data ((x_start : Int) >>> (8 : Nat)) m
  let m := ili9341_send_data ((x_start &&& 0xFF : Nat) : Int) m
  let m := ili9341_send_data ((x_end : Int) >>> (8 : Nat)) m
  let m := ili9341_send_data ((x_end &&& 0xFF : Nat) : Int) m
  let m := ili9341_send_cmd 0x2B m
  let m := ili9341_send_data ((y_start : Int) >>> (8 : Nat)) m
  let m := ili9341_send_data ((y_start &&& 0xFF : Nat) : Int) m
  let m := ili9341_send_data ((y_end : Int) >>> (8 : Nat)) m
  let m := ili9341_send_data ((y_end &&& 0xFF : Nat) : Int) m
  let m := ili9341_send_cmd 0x2C m
  let m := ili9341_spi_fb_transmition_mode m
  let m := dma_setup_transfer ILI9341_DMA ILI9341_DMA_STREAM ILI9341_DMA_CHANNEL fb buff_len
    SPI1_DR_ADDR DMA_enable_TC ILI9341_DMA_SETTINGS_FB ILI9341_DMA_FIFO_SETTINGS_FB m
  let m := ili9341_select m
  let m := ili9341_dc_data m
  ili9341_spi_start_dma m

/-- The window `(x_start, x_end, y_start, y_end)` computed on lines 369-373 of
`ili9341_fb_dma_fill_centered`. -/
def centered_window (width height : Nat) : Nat × Nat × Nat × Nat :=
  let x_start : Nat := u16 ((ILI9341_LCD_WIDTH - (width : Int)) >>> (1 : Nat))
  let x_end : Nat := u16 ((x_start : Int) + (width : Int) - 1)
  let y_start : Nat := u16 ((ILI9341_LCD_HEIGHT - (height : Int)) >>> (1 : Nat))
  let y_end : Nat := u16 ((y_start : Int) + (height : Int) - 1)
  (x_start, x_end, y_start, y_end)

/-! ## Observers of a trace -/

/-- The bytes stored to the SPI data register, each paired with the level of the
data/command line (pin 7 of port B) at the moment of the store; `dc` is the level
at the start. -/
def dc_bytes : Bool → List Event → List (Bool × Nat)
  | _, [] => []
  | dc, Event.pin_set p n :: es =>
    dc_bytes (if p = ILI9341_GPIO_PORT ∧ n = ILI9341_DC_PIN then true else dc) es
  | dc, Event.pin_reset p n :: es =>
    dc_bytes (if p = ILI9341_GPIO_PORT ∧ n = ILI9341_DC_PIN then false else dc) es
  | dc, Event.write r v :: es =>
    if r = Reg.SPI1_DR then (dc, v) :: dc_bytes dc es else dc_bytes dc es
  | dc, _ :: es => dc_bytes dc es

/-- The bytes stored to the SPI data register, each with the levels of the chip-select
line (pin 6 of port B, low when asserted) and of the data/command line (pin 7, high for
data) at the moment of the store; `cs` and `dc` are the levels at the start. -/
def cs_dc_bytes : Bool → Bool → List Event → List (Bool × Bool × Nat)
  | _, _, [] => []
  | cs, dc, Event.pin_set p n :: es =>
    cs_dc_bytes (if p = ILI9341_GPIO_PORT ∧ n = ILI9341_CS_PIN then true else cs)
      (if p = ILI9341_GPIO_PORT ∧ n = ILI9341_DC_PIN then true else dc) es
  | cs, dc, Event.pin_reset p n :: es =>
    cs_dc_bytes (if p = ILI9341_GPIO_PORT ∧ n = ILI9341_CS_PIN then false else cs)
      (if p = ILI9341_GPIO_PORT ∧ n = ILI9341_DC_PIN then false else dc) es
  | cs, dc, Event.write r v :: es =>
    if r = Reg.SPI1_DR then (cs, dc, v) :: cs_dc_bytes cs dc es else cs_dc_bytes cs dc es
  | cs, dc, _ :: es => cs_dc_bytes cs dc es

/-- The characters stored to the USART data register. -/
def uart_bytes : List Event → List Nat
  | [] => []
  | Event.write r v :: es => if r = Reg.USART1_DR then v :: uart_bytes es else uart_bytes es
  | _ :: es => uart_bytes es

/-- A busy-wait loop on a hardware status bit. -/
def is_wait : Event → Bool
  | Event.wait _ _ _ => true
  | _ => false

/-- The six accesses of one pixel in `ili9341_fill`: two bytes through
`spi_transmit_only`. -/
def pixel_events (color : Nat) : List Event :=
  [Event.write Reg.SPI1_DR (u8 ((color : Int) >>> (8 : Nat))),
   Event.wait Reg.SPI1_SR SPI_SR_BSY_MASK true, Event.wait Reg.SPI1_SR SPI_SR_BSY_MASK false,
   Event.write Reg.SPI1_DR (u8 ((color &&& 0xFF : Nat) : Int)),
   Event.wait Reg.SPI1_SR SPI_SR_BSY_MASK true, Event.wait Reg.SPI1_SR SPI_SR_BSY_MASK false]

/-- Position of a stream's flags in its flag register: the table `shift` of
`dma_clear_interrupts`, indexed by the stream number modulo 4. -/
def flag_shift (stream : DMA_stream_num_t) : Nat := [0, 6, 16, 22].getD (stream.val % 4) 0

/-- The flag-clear register of a stream: the low one for streams 0-3, the high one for
streams 4-7. -/
def flag_clear_reg (DMA : DMA_typedef_t) (stream : DMA_stream_num_t) : Reg :=
  if stream.val ≤ 3 then Reg.LIFCR DMA else Reg.HIFCR DMA

/-- The flag status register of a stream. -/
def flag_status_reg (DMA : DMA_typedef_t) (stream : DMA_stream_num_t) : Reg :=
  if stream.val ≤ 3 then Reg.LISR DMA else Reg.HISR DMA

/-- The decimal digits of `value`, most significant first, without leading zeros; the
single digit 0 for 0. -/
def decimal_digits (value : Nat) : List Nat :=
  if value = 0 then [0] else (Nat.digits 10 value).reverse

/-- A machine whose DMA2 stream 2 was used before: it is still enabled, and its second
memory address register and element counter hold values of that use. -/
def Machine.stream_used : Machine :=
  { regs := fun r =>
      match r with
      | Reg.CR DMA_typedef_t.DMA2 2 => 0x4804C51
      | Reg.NDTR DMA_typedef_t.DMA2 2 => 1200
      | Reg.M1AR DMA_typedef_t.DMA2 2 => 0x20001000
      | _ => 0,
    pins := fun _ _ => false,
    trace := [] }

/-- The machine after reset with the frame-error flag of DMA2 stream 2 raised. -/
def Machine.frame_error : Machine :=
  { regs := fun r =>
      match r with
      | Reg.LISR DMA_typedef_t.DMA2 => DMA_Stream2_frame_error
      | _ => 0,
    pins := fun _ _ => false,
    trace := [] }

/-- A store to one of the SPI control registers `CR1`, `CR2`. -/
def spi_ctrl_write : Event → Bool
  | Event.write Reg.SPI1_CR1 _ => true
  | Event.write Reg.SPI1_CR2 _ => true
  | _ => false

/-- The six accesses of `ili9341_send_cmd` for the byte `c`. -/
def cmd_events (c : Nat) : List Event :=
  [Event.pin_reset ILI9341_GPIO_PORT ILI9341_CS_PIN, Event.pin_reset ILI9341_GPIO_PORT ILI9341_DC_PIN,
   Event.write Reg.SPI1_DR c, Event.wait Reg.SPI1_SR SPI_SR_BSY_MASK true,
   Event.wait Reg.SPI1_SR SPI_SR_BSY_MASK false, Event.pin_set ILI9341_GPIO_PORT ILI9341_CS_PIN]

/-- The six accesses of `ili9341_send_data` for the byte `c`. -/
def data_events (c : Nat) : List Event :=
  [Event.pin_reset ILI9341_GPIO_PORT ILI9341_CS_PIN, Event.pin_set ILI9341_GPIO_PORT ILI9341_DC_PIN,
   Event.write Reg.SPI1_DR c, Event.wait Reg.SPI1_SR SPI_SR_BSY_MASK true,
   Event.wait Reg.SPI1_SR SPI_SR_BSY_MASK false, Event.pin_set ILI9341_GPIO_PORT ILI9341_CS_PIN]

/-- The eight accesses of a profile switch (`spi_disable`, `spi_setup`, `spi_enable`) to
the `CR1` value `features`, started with `CR1 = cr1`. -/
def profile_switch_events (cr1 features : Nat) : List Event :=
  [Event.wait Reg.SPI1_SR SPI_SR_BSY_MASK false,
   Event.write Reg.SPI1_CR1 (cr1 &&& bit_not32 SPI_CR1_SPIEN_MASK),
   Event.wait Reg.SPI1_CR1 SPI_CR1_SPIEN_MASK false,
   Event.write Reg.SPI1_CR1 features,
   Event.write Reg.SPI1_CR2 0,
   Event.write Reg.SPI1_CR1 (features ||| SPI_CR1_SPIEN_MASK),
   Event.wait Reg.SPI1_CR1 SPI_CR1_SPIEN_MASK true,
   Event.wait Reg.SPI1_SR SPI_SR_BSY_MASK false]

/-- The accesses of lines 341-352 of `ili9341.h`: the interrupt line is enabled, then the
column command, the row command and the memory-write command are sent, the first two
with four parameter bytes each. -/
def window_events (x_start y_start x_end y_end : Nat) : List Event :=
  Event.nvic_enable ILI9341_NVIC_DMA_INTERRUPT ::
    (cmd_events (u8 0x2A) ++
      (data_events (u8 ((x_start : Int) >>> (8 : Nat))) ++
        (data_events (u8 ((x_start &&& 0xFF : Nat) : Int)) ++
          (data_events (u8 ((x_end : Int) >>> (8 : Nat))) ++
            (data_events (u8 ((x_end &&& 0xFF : Nat) : Int)) ++
              (cmd_events (u8 0x2B) ++
                (data_events (u8 ((y_start : Int) >>> (8 : Nat))) ++
                  (data_events (u8 ((y_start &&& 0xFF : Nat) : Int)) ++
                    (data_events (u8 ((y_end : Int) >>> (8 : Nat))) ++
                      (data_events (u8 ((y_end &&& 0xFF : Nat) : Int)) ++
                        cmd_events (u8 0x2C)))))))))))

/-- The control word `interrupts | features | channel` the display driver hands to
`dma_setup_transfer`. -/
def ILI9341_DMA_CR : Nat := DMA_enable_TC ||| ILI9341_DMA_SETTINGS_FB ||| ILI9341_DMA_CHANNEL

/-- The accesses of lines 354-364 of `ili9341.h`: `dma_setup_transfer`, chip-select,
data/command line, `dma_start_transfer`, `spi_enable_misc`; `cr` is the previous content
of the stream's control register. -/
def dma_arm_events (cr fb buff_len : Nat) : List Event :=
  [Event.write (Reg.CR ILI9341_DMA ILI9341_DMA_STREAM) (cr &&& bit_not32 CR_EN_MASK),
   Event.wait (Reg.CR ILI9341_DMA ILI9341_DMA_STREAM) CR_EN_MASK false,
   Event.write (Reg.LIFCR ILI9341_DMA) (u32 (DMA_clear_all <<< 16)),
   Event.write (Reg.PAR ILI9341_DMA ILI9341_DMA_STREAM) (u32 SPI1_DR_ADDR),
   Event.write (Reg.M0AR ILI9341_DMA ILI9341_DMA_STREAM) (u32 fb),
   Event.write (Reg.NDTR ILI9341_DMA ILI9341_DMA_STREAM) buff_len,
   Event.write (Reg.CR ILI9341_DMA ILI9341_DMA_STREAM) ILI9341_DMA_CR,
   Event.write (Reg.FCR ILI9341_DMA ILI9341_DMA_STREAM) ILI9341_DMA_FIFO_SETTINGS_FB,
   Event.pin_reset ILI9341_GPIO_PORT ILI9341_CS_PIN,
   Event.pin_set ILI9341_GPIO_PORT ILI9341_DC_PIN,
   Event.write (Reg.CR ILI9341_DMA ILI9341_DMA_STREAM) (ILI9341_DMA_CR ||| CR_EN_MASK),
   Event.write Reg.SPI1_CR2 (0 ||| SPI_MISC_ENABLE_DMA_TX)]

/-- The field of `width` bits at bit `lo` of a register value. -/
def bit_field (v lo width : Nat) : Nat := (v >>> lo) % 2 ^ width

/-- The stores to the SPI control registers `CR1` and `CR2` in a trace, in program order,
each with the value stored and the level of the SPI enable bit (`SPE`, bit 6 of `CR1`) at
the moment of the store. The level is bit 6 of the last value stored to `CR1`; `spe` is
the level at the start of the trace. -/
def ctrl_writes_with_spe : Bool → List Event → List (Reg × Nat × Bool)
  | _, [] => []
  | spe, Event.write Reg.SPI1_CR1 v :: rest =>
    (Reg.SPI1_CR1, v, spe) :: ctrl_writes_with_spe (decide (v &&& SPI_CR1_SPIEN_MASK ≠ 0)) rest
  | spe, Event.write Reg.SPI1_CR2 v :: rest =>
    (Reg.SPI1_CR2, v, spe) :: ctrl_writes_with_spe spe rest
  | spe, _ :: rest => ctrl_writes_with_spe spe rest

/-- The store a block of `dma2_stream2_isr` makes for `flag` when the status register
holds `lisr`: `DMA2->LIFCR |= flag` when the flag is set, nothing otherwise. -/
def flag_clear_events (lisr flag : Nat) : List Event :=
  if lisr &&& flag ≠ 0 then [Event.write (Reg.LIFCR DMA_typedef_t.DMA2) flag] else []

/-- All accesses of `dma2_stream2_isr` as the display driver builds it, entered with the
status register `lisr` and the SPI control register `cr1`, block by block: frame error,
direct-mode error, transfer error, transfer complete (with the accesses of
`dma2_stream2_tc`), half transfer. -/
def ili9341_isr_events (lisr cr1 : Nat) : List Event :=
  flag_clear_events lisr DMA_Stream2_frame_error ++
    (flag_clear_events lisr DMA_Stream2_direct_mode_error ++
      (flag_clear_events lisr DMA_Stream2_transfer_error ++
        ((if lisr &&& DMA_Stream2_transfer_complete ≠ 0 then
            Event.write (Reg.LIFCR DMA_typedef_t.DMA2) DMA_Stream2_transfer_complete ::
              Event.pin_set ILI9341_GPIO_PORT ILI9341_CS_PIN ::
                profile_switch_events cr1 ILI9341_SPI_FEATURES_CMD
          else []) ++
          flag_clear_events lisr DMA_Stream2_half_transfer)))

/-- The machine after reset with the transfer-complete flag and the frame-error flag of
DMA2 stream 2 both raised: a transfer that ended with a FIFO error on the way. -/
def Machine.complete_with_frame_error : Machine :=
  { regs := fun r =>
      match r with
      | Reg.LISR DMA_typedef_t.DMA2 => DMA_Stream2_transfer_complete ||| DMA_Stream2_frame_error
      | _ => 0,
    pins := fun _ _ => false,
    trace := [] }

/-! ## Machine integer facts -/

theorem u8_shr (x : Nat) (h : x < 65536) : u8 ((x : Int) >>> (8 : Nat)) = x >>> 8 := by
  have h1 : ((x : Int) >>> (8 : Nat)) = ((x >>> 8 : Nat) : Int) := rfl
  have h2 : x >>> 8 < 256 := by
    rw [Nat.shiftRight_eq_div_pow]; omega
  rw [h1, u8]; omega

theorem u8_and (x : Nat) : u8 ((x &&& 0xFF : Nat) : Int) = x &&& 0xFF := by
  have h2 : x &&& 0xFF < 256 := by
    have := @Nat.and_le_right x 0xFF
    omega
  rw [u8]; omega

theorem u16_span (a b : Nat) (h : a ≤ b) (hb : b < 65535) :
    u16 (((b : Int) - (a : Int)) + 1) = b - a + 1 := by
  unfold u16; omega

theorem i32_small (n : Nat) (h : n < 2147483648) : i32 (n : Int) = n := by
  unfold i32; omega

theorem u16_small (n : Nat) (h : n < 65536) : u16 (n : Int) = n := by
  unfold u16; omega

/-- No window inside the 240x320 panel has exactly 65535 pixels: 65535 = 255 * 257 and
257 is prime. -/
theorem pixel_count_ne_uint16_max (w l : Nat) (hw : w ≤ 240) (hl : l ≤ 320) : w * l ≠ 65535 := by
  intro h
  have hp : Nat.Prime 257 := by norm_num
  have hd : 257 ∣ w * l := ⟨255, by omega⟩
  rcases (Nat.Prime.dvd_mul hp).1 hd with ⟨c, hc⟩ | ⟨c, hc⟩
  · have hc0 : c = 0 := by omega
    subst hc0
    simp at hc
    subst hc
    simp at h
  · have hc1 : c = 0 ∨ c = 1 := by omega
    rcases hc1 with rfl | rfl
    · simp at hc
      subst hc
      simp at h
    · have hl257 : l = 257 := by omega
      subst hl257
      omega

/-! ## Effects of the primitive accesses -/

section primitives
variable (m : Machine) (r : Reg) (v k : Nat) (b : Bool) (p : GPIO_port) (n : Nat)

@[simp] theorem reg_write_trace : (reg_write r v m).trace = m.trace ++ [Event.write r v] := by
  cases r <;> rfl

@[simp] theorem reg_write_pins : (reg_write r v m).pins = m.pins := by
  cases r <;> rfl

@[simp] theorem busy_wait_trace : (busy_wait r k b m).trace = m.trace ++ [Event.wait r k b] := rfl

@[simp] theorem busy_wait_pins : (busy_wait r k b m).pins = m.pins := rfl

@[simp] theorem busy_wait_regs : (busy_wait r k b m).regs = Function.update m.regs r
    (if b then m.regs r ||| k else m.regs r &&& bit_not32 k) := rfl

@[simp] theorem io_pin_set_trace : (io_pin_set p n m).trace = m.trace ++ [Event.pin_set p n] := rfl

@[simp] theorem io_pin_set_regs : (io_pin_set p n m).regs = m.regs := rfl

@[simp] theorem io_pin_reset_trace :
    (io_pin_reset p n m).trace = m.trace ++ [Event.pin_reset p n] := rfl

@[simp] theorem io_pin_reset_regs : (io_pin_reset p n m).regs = m.regs := rfl

@[simp] theorem nvic_enable_interrupt_trace (i : NVIC_irq) :
    (nvic_enable_interrupt i m).trace = m.trace ++ [Event.nvic_enable i] := rfl

@[simp] theorem nvic_enable_interrupt_regs (i : NVIC_irq) :
    (nvic_enable_interrupt i m).regs = m.regs := rfl

@[simp] theorem nvic_enable_interrupt_pins (i : NVIC_irq) :
    (nvic_enable_interrupt i m).pins = m.pins := rfl

/-- A store to a register other than the flag-clear registers is a plain store. -/
theorem reg_write_regs (h1 : ∀ d, r ≠ Reg.LIFCR d) (h2 : ∀ d, r ≠ Reg.HIFCR d) :
    (reg_write r v m).regs = Function.update m.regs r v := by
  cases r <;> first | rfl | exact absurd rfl (h1 _) | exact absurd rfl (h2 _)

@[simp] theorem reg_write_regs_LIFCR (d : DMA_typedef_t) : (reg_write (Reg.LIFCR d) v m).regs =
    Function.update m.regs (Reg.LISR d) (m.regs (Reg.LISR d) &&& bit_not32 v) := rfl

theorem reg_read_plain (h1 : ∀ d, r ≠ Reg.LIFCR d) (h2 : ∀ d, r ≠ Reg.HIFCR d) :
    reg_read r m = m.regs r := by
  cases r <;> first | rfl | exact absurd rfl (h1 _) | exact absurd rfl (h2 _)

@[simp] theorem reg_read_LIFCR (d : DMA_typedef_t) : reg_read (Reg.LIFCR d) m = 0 := rfl

end primitives

/-! ## Effects of the driver functions -/

section driver
variable (m : Machine)

@[simp] theorem ili9341_send_cmd_trace (c : Int) :
    (ili9341_send_cmd c m).trace = m.trace ++ cmd_events (u8 c) := by
  simp [ili9341_send_cmd, ili9341_select, ili9341_dc_command, ili9341_deselect,
    spi_transmit_only, cmd_events]

@[simp] theorem ili9341_send_data_trace (c : Int) :
    (ili9341_send_data c m).trace = m.trace ++ data_events (u8 c) := by
  simp [ili9341_send_data, ili9341_select, ili9341_dc_data, ili9341_deselect,
    spi_transmit_only, data_events]

/-- Sending a byte touches only the SPI data and status registers. -/
theorem ili9341_send_cmd_regs (c : Int) (r : Reg) (h1 : r ≠ Reg.SPI1_DR) (h2 : r ≠ Reg.SPI1_SR) :
    (ili9341_send_cmd c m).regs r = m.regs r := by
  simp [ili9341_send_cmd, ili9341_select, ili9341_dc_command, ili9341_deselect,
    spi_transmit_only, reg_write_regs, Function.update_apply, h1, h2]

theorem ili9341_send_data_regs (c : Int) (r : Reg) (h1 : r ≠ Reg.SPI1_DR) (h2 : r ≠ Reg.SPI1_SR) :
    (ili9341_send_data c m).regs r = m.regs r := by
  simp [ili9341_send_data, ili9341_select, ili9341_dc_data, ili9341_deselect,
    spi_transmit_only, reg_write_regs, Function.update_apply, h1, h2]

/-- The accesses of a profile switch, for either profile. -/
theorem profile_switch_trace (features : Nat) :
    (spi_enable (spi_setup features 0 0 (spi_disable m))).trace =
      m.trace ++ profile_switch_events (m.regs Reg.SPI1_CR1) features := by
  simp [spi_enable, spi_setup, spi_disable, profile_switch_events, reg_write_regs, reg_read_plain,
    Function.update_apply]

/-- After a profile switch `CR1` holds the profile with the enable bit set, `CR2` is zero. -/
theorem profile_switch_regs (features : Nat) (r : Reg) (h : r ≠ Reg.SPI1_SR) :
    (spi_enable (spi_setup features 0 0 (spi_disable m))).regs r =
      if r = Reg.SPI1_CR1 then features ||| SPI_CR1_SPIEN_MASK
      else if r = Reg.SPI1_CR2 then 0 else m.regs r := by
  by_cases h1 : r = Reg.SPI1_CR1
  · subst h1
    simp [spi_enable, spi_setup, spi_disable, reg_write_regs, reg_read_plain, Function.update_apply,
      Nat.or_assoc]
  · by_cases h2 : r = Reg.SPI1_CR2
    · subst h2
      simp [spi_enable, spi_setup, spi_disable, reg_write_regs, reg_read_plain,
        Function.update_apply]
    · simp [spi_enable, spi_setup, spi_disable, reg_write_regs, reg_read_plain,
        Function.update_apply, h, h1, h2]

@[simp] theorem profile_switch_pins (features : Nat) :
    (spi_enable (spi_setup features 0 0 (spi_disable m))).pins = m.pins := by
  simp [spi_enable, spi_setup, spi_disable]

end driver

/-! ## The transfer pipeline -/

section pipeline
variable (m : Machine)

/-- The eleven bytes of the window commands leave every register but the SPI data and
status registers as it was. -/
theorem window_regs (c1 d1 d2 d3 d4 c2 d5 d6 d7 d8 c3 : Int) (i : NVIC_irq) (r : Reg)
    (h1 : r ≠ Reg.SPI1_DR) (h2 : r ≠ Reg.SPI1_SR) :
    (ili9341_send_cmd c3 (ili9341_send_data d8 (ili9341_send_data d7 (ili9341_send_data d6
      (ili9341_send_data d5 (ili9341_send_cmd c2 (ili9341_send_data d4 (ili9341_send_data d3
      (ili9341_send_data d2 (ili9341_send_data d1 (ili9341_send_cmd c1
        (nvic_enable_interrupt i m)))))))))))).regs r = m.regs r := by
  simp [ili9341_send_cmd_regs, ili9341_send_data_regs, h1, h2]

/-- All accesses of the body shared by the two entry points. -/
theorem ili9341_fb_dma_body_trace (fb xs ys xe ye n : Nat) :
    (ili9341_fb_dma_body fb xs ys xe ye n m).trace =
      m.trace ++ (window_events xs ys xe ye ++
        (profile_switch_events (m.regs Reg.SPI1_CR1) ILI9341_SPI_FEATURES_DMA ++
          dma_arm_events (m.regs (Reg.CR ILI9341_DMA ILI9341_DMA_STREAM)) fb n)) := by
  simp only [ili9341_fb_dma_body, ili9341_spi_start_dma, dma_start_transfer, spi_enable_misc,
    ili9341_dc_data, ili9341_select, dma_setup_transfer, dma_clear_interrupts,
    ili9341_spi_fb_transmition_mode]
  simp [reg_write_regs, reg_read_plain, Function.update_apply, profile_switch_trace,
    profile_switch_regs, window_regs, window_events, dma_arm_events, ILI9341_DMA_STREAM,
    DMA_STREAM2, ILI9341_DMA, ILI9341_DMA_CR]

/-- The registers of the SPI and of DMA2 stream 2 when the body returns. -/
theorem ili9341_fb_dma_body_regs (fb xs ys xe ye n : Nat) :
    let m1 := ili9341_fb_dma_body fb xs ys xe ye n m
    m1.regs Reg.SPI1_CR1 = (ILI9341_SPI_FEATURES_DMA ||| SPI_CR1_SPIEN_MASK) ∧
    m1.regs Reg.SPI1_CR2 = (0 ||| SPI_MISC_ENABLE_DMA_TX) ∧
    m1.regs (Reg.PAR ILI9341_DMA ILI9341_DMA_STREAM) = u32 SPI1_DR_ADDR ∧
    m1.regs (Reg.M0AR ILI9341_DMA ILI9341_DMA_STREAM) = u32 fb ∧
    m1.regs (Reg.NDTR ILI9341_DMA ILI9341_DMA_STREAM) = n ∧
    m1.regs (Reg.CR ILI9341_DMA ILI9341_DMA_STREAM) = (ILI9341_DMA_CR ||| CR_EN_MASK) ∧
    m1.regs (Reg.FCR ILI9341_DMA ILI9341_DMA_STREAM) = ILI9341_DMA_FIFO_SETTINGS_FB := by
  simp only [ili9341_fb_dma_body, ili9341_spi_start_dma, dma_start_transfer, spi_enable_misc,
    ili9341_dc_data, ili9341_select, dma_setup_transfer, dma_clear_interrupts,
    ili9341_spi_fb_transmition_mode]
  simp [reg_write_regs, reg_read_plain, Function.update_apply, profile_switch_regs,
    ILI9341_DMA_STREAM, DMA_STREAM2, ILI9341_DMA, ILI9341_DMA_CR]

end pipeline

/-! ## Acceptance of a window -/

/-- A valid window passes both assertions; the element count is the pixel count. -/
theorem fb_dma_fill_valid (fb xs ys xe ye : Nat) (m : Machine)
    (hx : xs ≤ xe) (hxe : xe < 240) (hy : ys ≤ ye) (hye : ye < 320)
    (hpx : (xe - xs + 1) * (ye - ys + 1) ≤ 65535) :
    ili9341_fb_dma_fill fb xs ys xe ye m =
      Outcome.returned (ili9341_fb_dma_body fb xs ys xe ye ((xe - xs + 1) * (ye - ys + 1)) m) := by
  have hw := u16_span xs xe hx (by omega)
  have hl := u16_span ys ye hy (by omega)
  have hne := pixel_count_ne_uint16_max (xe - xs + 1) (ye - ys + 1) (by omega) (by omega)
  have hi : i32 (((xe - xs + 1 : Nat) : Int) * ((ye - ys + 1 : Nat) : Int)) =
      (((xe - xs + 1) * (ye - ys + 1) : Nat) : Int) := by
    rw [← Nat.cast_mul]; exact i32_small _ (by omega)
  have hu : u16 (((xe - xs + 1) * (ye - ys + 1) : Nat) : Int) = (xe - xs + 1) * (ye - ys + 1) :=
    u16_small _ (by omega)
  have c1 : (((xe - xs + 1) * (ye - ys + 1) : Nat) : Int) < UINT16_MAX := by
    unfold UINT16_MAX; omega
  have c2 : (xs : Int) < ILI9341_LCD_WIDTH ∧ (xe : Int) < ILI9341_LCD_WIDTH ∧
      (ys : Int) < ILI9341_LCD_HEIGHT ∧ (ye : Int) < ILI9341_LCD_HEIGHT := by
    unfold ILI9341_LCD_WIDTH ILI9341_LCD_HEIGHT; omega
  unfold ili9341_fb_dma_fill
  simp only [hw, hl, hi, hu, c1, c2, not_true_eq_false, if_false, and_self]
  rfl

/-- A call that returns passed both assertions and ran the body. -/
theorem fb_dma_fill_returned (fb xs ys xe ye : Nat) (m m1 : Machine)
    (h : ili9341_fb_dma_fill fb xs ys xe ye m = Outcome.returned m1) :
    (xs < 240 ∧ xe < 240 ∧ ys < 320 ∧ ye < 320) ∧
      i32 ((u16 (((xe : Int) - (xs : Int)) + 1) : Int) * (u16 (((ye : Int) - (ys : Int)) + 1) : Int))
        < 65535 ∧
      m1 = ili9341_fb_dma_body fb xs ys xe ye
        (u16 (i32 ((u16 (((xe : Int) - (xs : Int)) + 1) : Int) *
          (u16 (((ye : Int) - (ys : Int)) + 1) : Int)))) m := by
  unfold ili9341_fb_dma_fill at h
  simp only [UINT16_MAX, ILI9341_LCD_WIDTH, ILI9341_LCD_HEIGHT] at h
  split at h
  · exact absurd h (by simp)
  · split at h
    · exact absurd h (by simp)
    · rename_i h1 h2
      simp only [not_not] at h1 h2
      refine ⟨by omega, h1, ?_⟩
      injection h with h
      exact h.symm

/-! ## Observing the command channel -/

theorem dc_bytes_cmd (dc : Bool) (c : Nat) (rest : List Event) :
    dc_bytes dc (cmd_events c ++ rest) = (false, c) :: dc_bytes false rest := by
  simp [cmd_events, dc_bytes, ILI9341_CS_PIN, ILI9341_DC_PIN]

theorem dc_bytes_data (dc : Bool) (c : Nat) (rest : List Event) :
    dc_bytes dc (data_events c ++ rest) = (true, c) :: dc_bytes true rest := by
  simp [data_events, dc_bytes, ILI9341_CS_PIN, ILI9341_DC_PIN]

theorem dc_bytes_profile_switch (dc : Bool) (cr1 f : Nat) (rest : List Event) :
    dc_bytes dc (profile_switch_events cr1 f ++ rest) = dc_bytes dc rest := by
  simp [profile_switch_events, dc_bytes]

theorem dc_bytes_dma_arm (dc : Bool) (cr fb n : Nat) :
    dc_bytes dc (dma_arm_events cr fb n) = [] := by
  simp [dma_arm_events, dc_bytes]

theorem takeWhile_cmd (c : Nat) (rest : List Event) :
    (cmd_events c ++ rest).takeWhile (fun e => !spi_ctrl_write e) =
      cmd_events c ++ rest.takeWhile (fun e => !spi_ctrl_write e) := by
  simp [cmd_events, List.takeWhile, spi_ctrl_write]

theorem takeWhile_data (c : Nat) (rest : List Event) :
    (data_events c ++ rest).takeWhile (fun e => !spi_ctrl_write e) =
      data_events c ++ rest.takeWhile (fun e => !spi_ctrl_write e) := by
  simp [data_events, List.takeWhile, spi_ctrl_write]

theorem takeWhile_profile_switch (cr1 f : Nat) (rest : List Event) :
    (profile_switch_events cr1 f ++ rest).takeWhile (fun e => !spi_ctrl_write e) =
      [Event.wait Reg.SPI1_SR SPI_SR_BSY_MASK false] := by
  simp [profile_switch_events, List.takeWhile, spi_ctrl_write]

theorem dc_bytes_nvic (dc : Bool) (i : NVIC_irq) (rest : List Event) :
    dc_bytes dc (Event.nvic_enable i :: rest) = dc_bytes dc rest := by
  simp [dc_bytes]

/-- The bytes of the window commands, whatever follows them. -/
theorem dc_bytes_window (dc : Bool) (xs ys xe ye : Nat) (rest : List Event)
    (hxs : xs < 65536) (hxe : xe < 65536) (hys : ys < 65536) (hye : ye < 65536) :
    dc_bytes dc (window_events xs ys xe ye ++ rest) =
      [(false, 0x2A), (true, xs >>> 8), (true, xs &&& 0xFF), (true, xe >>> 8), (true, xe &&& 0xFF),
       (false, 0x2B), (true, ys >>> 8), (true, ys &&& 0xFF), (true, ye >>> 8), (true, ye &&& 0xFF),
       (false, 0x2C)] ++ dc_bytes false rest := by
  have e1 : u8 0x2A = 0x2A := rfl
  have e2 : u8 0x2B = 0x2B := rfl
  have e3 : u8 0x2C = 0x2C := rfl
  simp only [window_events, List.cons_append, List.append_assoc, dc_bytes_nvic, dc_bytes_cmd,
    dc_bytes_data, u8_shr _ hxs, u8_shr _ hxe, u8_shr _ hys, u8_shr _ hye, u8_and, e1, e2, e3,
    List.nil_append]

theorem takeWhile_nvic (i : NVIC_irq) (rest : List Event) :
    (Event.nvic_enable i :: rest).takeWhile (fun e => !spi_ctrl_write e) =
      Event.nvic_enable i :: rest.takeWhile (fun e => !spi_ctrl_write e) := by
  simp [List.takeWhile, spi_ctrl_write]

theorem takeWhile_window (xs ys xe ye : Nat) (rest : List Event) :
    (window_events xs ys xe ye ++ rest).takeWhile (fun e => !spi_ctrl_write e) =
      window_events xs ys xe ye ++ rest.takeWhile (fun e => !spi_ctrl_write e) := by
  simp only [window_events, List.cons_append, List.append_assoc, takeWhile_nvic, takeWhile_cmd,
    takeWhile_data]

/-- C1 (`ili9341_fb_dma_fill`, lines 335-353): for every valid window the call returns, and
the bytes it stores to the SPI data register before its first store to an SPI control
register (the switch to the streaming profile) are exactly 0x2A, x_start>>8,
x_start&0xFF, x_end>>8, x_end&0xFF, 0x2B, y_start>>8, y_start&0xFF, y_end>>8,
y_end&0xFF, 0x2C in this order, the three opcodes with the data/command line low and the
eight parameter bytes with it high; the switch follows, and no byte is stored after it. -/
theorem C1_fb_dma_fill_window_bytes (fb xs ys xe ye : Nat) (m : Machine) (dc0 : Bool)
    (hx : xs ≤ xe) (hxe : xe < 240) (hy : ys ≤ ye) (hye : ye < 320)
    (hpx : (xe - xs + 1) * (ye - ys + 1) ≤ 65535) :
    ∃ m1 t, ili9341_fb_dma_fill fb xs ys xe ye m = Outcome.returned m1 ∧
      m1.trace = m.trace ++ t ∧
      dc_bytes dc0 (t.takeWhile (fun e => !spi_ctrl_write e)) =
        [(false, 0x2A), (true, xs >>> 8), (true, xs &&& 0xFF), (true, xe >>> 8),
         (true, xe &&& 0xFF), (false, 0x2B), (true, ys >>> 8), (true, ys &&& 0xFF),
         (true, ye >>> 8), (true, ye &&& 0xFF), (false, 0x2C)] ∧
      t.any spi_ctrl_write = true ∧
      dc_bytes dc0 t = dc_bytes dc0 (t.takeWhile (fun e => !spi_ctrl_write e)) := by
  refine ⟨_, _, fb_dma_fill_valid fb xs ys xe ye m hx hxe hy hye hpx,
    ili9341_fb_dma_body_trace m fb xs ys xe ye _, ?_, ?_, ?_⟩
  · rw [takeWhile_window, takeWhile_profile_switch,
      dc_bytes_window dc0 xs ys xe ye _ (by omega) (by omega) (by omega) (by omega)]
    simp [dc_bytes]
  · simp [profile_switch_events, spi_ctrl_write]
  · rw [takeWhile_window, takeWhile_profile_switch,
      dc_bytes_window dc0 xs ys xe ye _ (by omega) (by omega) (by omega) (by omega),
      dc_bytes_window dc0 xs ys xe ye _ (by omega) (by omega) (by omega) (by omega),
      dc_bytes_profile_switch, dc_bytes_dma_arm]
    simp [dc_bytes]

theorem C1_fb_dma_fill_window_bytes_witness :
    ∃ m1 t, ili9341_fb_dma_fill 0x20000000 50 50 149 99 Machine.reset = Outcome.returned m1 ∧
      m1.trace = Machine.reset.trace ++ t ∧
      dc_bytes false (t.takeWhile (fun e => !spi_ctrl_write e)) =
        [(false, 0x2A), (true, 50 >>> 8), (true, 50 &&& 0xFF), (true, 149 >>> 8),
         (true, 149 &&& 0xFF), (false, 0x2B), (true, 50 >>> 8), (true, 50 &&& 0xFF),
         (true, 99 >>> 8), (true, 99 &&& 0xFF), (false, 0x2C)] ∧
      t.any spi_ctrl_write = true ∧
      dc_bytes false t = dc_bytes false (t.takeWhile (fun e => !spi_ctrl_write e)) :=
  C1_fb_dma_fill_window_bytes 0x20000000 50 50 149 99 Machine.reset false
    (by decide) (by decide) (by decide) (by decide) (by decide)

/-! ## The centered entry point -/

/-- The window of a picture that fits the panel. -/
theorem centered_window_fits (w h : Nat) (hw : w ≤ 240) (hh : h ≤ 320) :
    centered_window w h =
      ((240 - w) / 2, (240 - w) / 2 + w - 1, (320 - h) / 2, (320 - h) / 2 + h - 1) := by
  have e1 : (ILI9341_LCD_WIDTH - (w : Int)) >>> (1 : Nat) = (((240 - w) / 2 : Nat) : Int) := by
    rw [Int.shiftRight_eq_div_pow]; unfold ILI9341_LCD_WIDTH; norm_num; omega
  have e2 : (ILI9341_LCD_HEIGHT - (h : Int)) >>> (1 : Nat) = (((320 - h) / 2 : Nat) : Int) := by
    rw [Int.shiftRight_eq_div_pow]; unfold ILI9341_LCD_HEIGHT; norm_num; omega
  unfold centered_window
  simp only [e1, e2]
  have a1 : u16 (((240 - w) / 2 : Nat) : Int) = (240 - w) / 2 := u16_small _ (by omega)
  have a2 : u16 (((320 - h) / 2 : Nat) : Int) = (320 - h) / 2 := u16_small _ (by omega)
  rw [a1, a2]
  by_cases hw0 : w = 0
  · subst hw0
    by_cases hh0 : h = 0
    · subst hh0; rfl
    · have b2 : u16 ((((320 - h) / 2 : Nat) : Int) + (h : Int) - 1) = (320 - h) / 2 + h - 1 := by
        unfold u16; omega
      rw [b2]; rfl
  · have b1 : u16 ((((240 - w) / 2 : Nat) : Int) + (w : Int) - 1) = (240 - w) / 2 + w - 1 := by
      unfold u16; omega
    by_cases hh0 : h = 0
    · subst hh0; rw [b1]; rfl
    · have b2 : u16 ((((320 - h) / 2 : Nat) : Int) + (h : Int) - 1) = (320 - h) / 2 + h - 1 := by
        unfold u16; omega
      rw [b1, b2]

/-- A picture that fits the panel and has fewer than 65535 pixels passes the assertion of
the centered entry point. -/
theorem fb_dma_fill_centered_valid (fb w h : Nat) (m : Machine) (hw : w ≤ 240) (hh : h ≤ 320)
    (hpx : w * h < 65535) :
    ili9341_fb_dma_fill_centered fb w h m =
      Outcome.returned (ili9341_fb_dma_body fb ((240 - w) / 2) ((320 - h) / 2)
        ((240 - w) / 2 + w - 1) ((320 - h) / 2 + h - 1) (w * h) m) := by
  have hi : i32 ((w : Int) * (h : Int)) = ((w * h : Nat) : Int) := by
    rw [← Nat.cast_mul]; exact i32_small _ (by omega)
  have hu : u16 ((w * h : Nat) : Int) = w * h := u16_small _ (by omega)
  have c1 : ((w * h : Nat) : Int) < UINT16_MAX := by
    unfold UINT16_MAX; omega
  have hcw := centered_window_fits w h hw hh
  unfold centered_window at hcw
  simp only [Prod.mk.injEq] at hcw
  obtain ⟨h1, h2, h3, h4⟩ := hcw
  unfold ili9341_fb_dma_fill_centered
  simp only [hi, hu, c1, not_true_eq_false, if_false]
  rw [h2, h4, h1, h3]
  rfl

/-- A call of the centered entry point that returns ran the shared body. -/
theorem fb_dma_fill_centered_returned (fb w h : Nat) (m m1 : Machine)
    (hr : ili9341_fb_dma_fill_centered fb w h m = Outcome.returned m1) :
    i32 ((w : Int) * (h : Int)) < 65535 ∧
      m1 = ili9341_fb_dma_body fb (centered_window w h).1 (centered_window w h).2.2.1
        (centered_window w h).2.1 (centered_window w h).2.2.2
        (u16 (i32 ((w : Int) * (h : Int)))) m := by
  unfold ili9341_fb_dma_fill_centered at hr
  simp only [UINT16_MAX] at hr
  split at hr
  · exact absurd hr (by simp)
  · rename_i h1
    simp only [not_not] at h1
    refine ⟨h1, ?_⟩
    injection hr with hr
    exact hr.symm

/-! ## Claims about the two entry points -/

/-- What the two assertions of `ili9341_fb_dma_fill` do reject (lines 338-339, and
`ASSERT`): a window with a coordinate outside the panel (x_start or x_end >= 240, y_start
or y_end >= 320), or an ordered window of more than 65535 pixels, makes the call enter
`assert_failed` (from line 338 or line 339) in the very state it was called in: no SPI
byte has been stored, no GPIO line changed and no DMA register written. -/
theorem fb_dma_fill_faults_on_invalid_window (fb xs ys xe ye : Nat) (m : Machine)
    (h : ¬ (xs < 240 ∧ xe < 240 ∧ ys < 320 ∧ ye < 320) ∨
      (xs ≤ xe ∧ ys ≤ ye ∧ 65535 < (xe - xs + 1) * (ye - ys + 1))) :
    ili9341_fb_dma_fill fb xs ys xe ye m = Outcome.halted 338 m ∨
      ili9341_fb_dma_fill fb xs ys xe ye m = Outcome.halted 339 m := by
  by_cases hb : xs < 240 ∧ xe < 240 ∧ ys < 320 ∧ ye < 320
  · rcases h with h | ⟨hx, hy, hpx⟩
    · exact absurd hb h
    · left
      have hw := u16_span xs xe hx (by omega)
      have hl := u16_span ys ye hy (by omega)
      have hle : (xe - xs + 1) * (ye - ys + 1) ≤ 240 * 320 :=
        Nat.mul_le_mul (by omega) (by omega)
      have hi : i32 (((xe - xs + 1 : Nat) : Int) * ((ye - ys + 1 : Nat) : Int)) =
          (((xe - xs + 1) * (ye - ys + 1) : Nat) : Int) := by
        rw [← Nat.cast_mul]; exact i32_small _ (by omega)
      have c1 : ¬ ((((xe - xs + 1) * (ye - ys + 1) : Nat) : Int) < UINT16_MAX) := by
        unfold UINT16_MAX; omega
      unfold ili9341_fb_dma_fill
      simp only [hw, hl, hi, c1, not_false_eq_true, if_true]
  · have c2 : ¬ ((xs : Int) < ILI9341_LCD_WIDTH ∧ (xe : Int) < ILI9341_LCD_WIDTH ∧
        (ys : Int) < ILI9341_LCD_HEIGHT ∧ (ye : Int) < ILI9341_LCD_HEIGHT) := by
      unfold ILI9341_LCD_WIDTH ILI9341_LCD_HEIGHT; omega
    unfold ili9341_fb_dma_fill
    simp only [c2, not_false_eq_true, if_true]
    split
    · left; rfl
    · right; rfl

/-- The full-screen window (0,0,239,319) of 76800 pixels faults. -/
theorem full_screen_window_faults :
    65535 < (239 - 0 + 1) * (319 - 0 + 1) ∧
    (ili9341_fb_dma_fill 0x20000000 0 0 239 319 Machine.reset = Outcome.halted 338 Machine.reset ∨
      ili9341_fb_dma_fill 0x20000000 0 0 239 319 Machine.reset
        = Outcome.halted 339 Machine.reset) :=
  ⟨by decide, fb_dma_fill_faults_on_invalid_window 0x20000000 0 0 239 319 Machine.reset
    (Or.inr ⟨by decide, by decide, by decide⟩)⟩

/-- C3 (`ili9341_fb_dma_fill_centered`, lines 368-377), the code at width 241, height 1:
the one assertion (241 * 1 < 65535) passes, the call returns, and it has sent the column
window 0xFFFF..0x00EF, the wrap of x_start = -1, on the command channel. -/
theorem C3_centered_oversize_is_sent :
    ∃ m1, ili9341_fb_dma_fill_centered 0x20000000 241 1 Machine.reset = Outcome.returned m1 ∧
      dc_bytes false m1.trace =
        [(false, 0x2A), (true, 0xFF), (true, 0xFF), (true, 0x00), (true, 0xEF),
         (false, 0x2B), (true, 0x00), (true, 159), (true, 0x00), (true, 159), (false, 0x2C)] := by
  have hr : ili9341_fb_dma_fill_centered 0x20000000 241 1 Machine.reset =
      Outcome.returned (ili9341_fb_dma_body 0x20000000 65535 159 239 159 241 Machine.reset) := by
    rfl
  refine ⟨_, hr, ?_⟩
  rw [ili9341_fb_dma_body_trace,
    show Machine.reset.trace = [] from rfl, List.nil_append,
    dc_bytes_window false 65535 159 239 159 _ (by decide) (by decide) (by decide) (by decide),
    dc_bytes_profile_switch, dc_bytes_dma_arm]
  decide

/-- C4 (`ili9341_fb_dma_fill`, lines 336-340): every valid window (x_start <= x_end < 240,
y_start <= y_end < 320, at most 65535 pixels) is accepted: the call stops in neither
assertion, returns, and its first accesses are those of the window commands. -/
theorem C4_fb_dma_fill_accepts_valid_window (fb xs ys xe ye : Nat) (m : Machine)
    (hx : xs ≤ xe) (hxe : xe < 240) (hy : ys ≤ ye) (hye : ye < 320)
    (hpx : (xe - xs + 1) * (ye - ys + 1) ≤ 65535) :
    (∀ line m2, ili9341_fb_dma_fill fb xs ys xe ye m ≠ Outcome.halted line m2) ∧
      ∃ m1 rest, ili9341_fb_dma_fill fb xs ys xe ye m = Outcome.returned m1 ∧
        m1.trace = m.trace ++ (window_events xs ys xe ye ++ rest) := by
  have hv := fb_dma_fill_valid fb xs ys xe ye m hx hxe hy hye hpx
  refine ⟨?_, _, _, hv, ili9341_fb_dma_body_trace m fb xs ys xe ye _⟩
  intro line m2 hh
  rw [hv] at hh
  exact Outcome.noConfusion hh

theorem C4_fb_dma_fill_accepts_valid_window_witness :
    (∀ line m2, ili9341_fb_dma_fill 0x20000000 0 0 239 239 Machine.reset ≠ Outcome.halted line m2) ∧
      ∃ m1 rest, ili9341_fb_dma_fill 0x20000000 0 0 239 239 Machine.reset = Outcome.returned m1 ∧
        m1.trace = Machine.reset.trace ++ (window_events 0 0 239 239 ++ rest) :=
  C4_fb_dma_fill_accepts_valid_window 0x20000000 0 0 239 239 Machine.reset
    (by decide) (by decide) (by decide) (by decide) (by decide)

/-- C5 (`ili9341_fb_dma_fill`, lines 335-361): when a window with x_start <= x_end and
y_start <= y_end is accepted (the call returns), the element count in the NDTR register
of DMA2 stream 2 is exactly the pixel count (x_end-x_start+1)*(y_end-y_start+1), and
that value is what the call stored there. -/
theorem C5_fb_dma_fill_element_count (fb xs ys xe ye : Nat) (m m1 : Machine)
    (hr : ili9341_fb_dma_fill fb xs ys xe ye m = Outcome.returned m1)
    (hx : xs ≤ xe) (hy : ys ≤ ye) :
    m1.regs (Reg.NDTR ILI9341_DMA ILI9341_DMA_STREAM) = (xe - xs + 1) * (ye - ys + 1) ∧
      Event.write (Reg.NDTR ILI9341_DMA ILI9341_DMA_STREAM) ((xe - xs + 1) * (ye - ys + 1))
        ∈ m1.trace := by
  obtain ⟨hb, hlt, hm⟩ := fb_dma_fill_returned fb xs ys xe ye m m1 hr
  have hw := u16_span xs xe hx (by omega)
  have hl := u16_span ys ye hy (by omega)
  have hle : (xe - xs + 1) * (ye - ys + 1) ≤ 240 * 320 :=
    Nat.mul_le_mul (by omega) (by omega)
  have hi : i32 (((xe - xs + 1 : Nat) : Int) * ((ye - ys + 1 : Nat) : Int)) =
      (((xe - xs + 1) * (ye - ys + 1) : Nat) : Int) := by
    rw [← Nat.cast_mul]; exact i32_small _ (by omega)
  rw [hw, hl, hi] at hlt hm
  have hu : u16 (((xe - xs + 1) * (ye - ys + 1) : Nat) : Int) = (xe - xs + 1) * (ye - ys + 1) :=
    u16_small _ (by omega)
  rw [hu] at hm
  subst hm
  refine ⟨(ili9341_fb_dma_body_regs m fb xs ys xe ye _).2.2.2.2.1, ?_⟩
  rw [ili9341_fb_dma_body_trace]
  simp [dma_arm_events]

/-- The window (50,50,149,99) of the usage example programs 5000 elements. -/
theorem C5_usage_example :
    ∃ m1, ili9341_fb_dma_fill 0x20000000 50 50 149 99 Machine.reset = Outcome.returned m1 ∧
      m1.regs (Reg.NDTR ILI9341_DMA ILI9341_DMA_STREAM) = 100 * 50 :=
  ⟨_, fb_dma_fill_valid 0x20000000 50 50 149 99 Machine.reset
      (by decide) (by decide) (by decide) (by decide) (by decide),
    (C5_fb_dma_fill_element_count 0x20000000 50 50 149 99 Machine.reset _
      (fb_dma_fill_valid 0x20000000 50 50 149 99 Machine.reset
        (by decide) (by decide) (by decide) (by decide) (by decide))
      (by decide) (by decide)).1⟩

/-- C6 (`ili9341_fb_dma_fill_centered`, lines 368-387): for width in 1..240 and height in
1..320 the derived window is x_start = (240-width)/2 rounded down, x_end =
x_start+width-1, y_start = (320-height)/2 rounded down, y_end = y_start+height-1; it lies
inside the panel, spans width x height pixels, the right margin 239-x_end and the bottom
margin 319-y_end exceed the left and top margins by at most one pixel, and when the
assertion passes this is the window the call sends. -/
theorem C6_centered_window (fb w h : Nat) (m : Machine)
    (hw1 : 1 ≤ w) (hw : w ≤ 240) (hh1 : 1 ≤ h) (hh : h ≤ 320) :
    ∃ xs xe ys ye, centered_window w h = (xs, xe, ys, ye) ∧
      xs = (240 - w) / 2 ∧ xe = xs + w - 1 ∧ ys = (320 - h) / 2 ∧ ye = ys + h - 1 ∧
      xs ≤ xe ∧ xe < 240 ∧ ys ≤ ye ∧ ye < 320 ∧
      xe - xs + 1 = w ∧ ye - ys + 1 = h ∧
      xs ≤ 239 - xe ∧ 239 - xe ≤ xs + 1 ∧ ys ≤ 319 - ye ∧ 319 - ye ≤ ys + 1 ∧
      (w * h < 65535 → ili9341_fb_dma_fill_centered fb w h m =
        Outcome.returned (ili9341_fb_dma_body fb xs ys xe ye (w * h) m)) := by
  refine ⟨(240 - w) / 2, (240 - w) / 2 + w - 1, (320 - h) / 2, (320 - h) / 2 + h - 1,
    centered_window_fits w h hw hh, rfl, rfl, rfl, rfl, ?_, ?_, ?_, ?_, ?_, ?_, ?_, ?_, ?_, ?_,
    fun hpx => fb_dma_fill_centered_valid fb w h m hw hh hpx⟩ <;> omega

/-- For the 240x240 picture of `main.c` the window is x 0..239, y 40..279. -/
theorem C6_main_picture : centered_window 240 240 = (0, 239, 40, 279) := by
  obtain ⟨xs, xe, ys, ye, hc, h1, h2, h3, h4, _⟩ :=
    C6_centered_window 0x20000000 240 240 Machine.reset (by decide) (by decide) (by decide)
      (by decide)
  rw [hc, h2, h4, h1, h3]

/-- C7 (`ili9341_fb_dma_fill`, lines 352-366): for every accepted window, the accesses
of the call end with the memory-write command followed, in this order, by: the switch to
the streaming profile (`spi_disable`, `spi_setup`, `spi_enable`); the configuration of
DMA2 stream 2; chip-select low and data/command high; the store that sets the stream
enable bit; and last the store that sets the SPI transmit-DMA-request bit. -/
theorem C7_fb_dma_fill_order (fb xs ys xe ye : Nat) (m m1 : Machine)
    (hr : ili9341_fb_dma_fill fb xs ys xe ye m = Outcome.returned m1) :
    ∃ before n, m1.trace = m.trace ++ (before ++ cmd_events 0x2C) ++
      [Event.wait Reg.SPI1_SR SPI_SR_BSY_MASK false,
       Event.write Reg.SPI1_CR1 (m.regs Reg.SPI1_CR1 &&& bit_not32 SPI_CR1_SPIEN_MASK),
       Event.wait Reg.SPI1_CR1 SPI_CR1_SPIEN_MASK false,
       Event.write Reg.SPI1_CR1 ILI9341_SPI_FEATURES_DMA,
       Event.write Reg.SPI1_CR2 0,
       Event.write Reg.SPI1_CR1 (ILI9341_SPI_FEATURES_DMA ||| SPI_CR1_SPIEN_MASK),
       Event.wait Reg.SPI1_CR1 SPI_CR1_SPIEN_MASK true,
       Event.wait Reg.SPI1_SR SPI_SR_BSY_MASK false,
       Event.write (Reg.CR ILI9341_DMA ILI9341_DMA_STREAM)
         (m.regs (Reg.CR ILI9341_DMA ILI9341_DMA_STREAM) &&& bit_not32 CR_EN_MASK),
       Event.wait (Reg.CR ILI9341_DMA ILI9341_DMA_STREAM) CR_EN_MASK false,
       Event.write (Reg.LIFCR ILI9341_DMA) (u32 (DMA_clear_all <<< 16)),
       Event.write (Reg.PAR ILI9341_DMA ILI9341_DMA_STREAM) (u32 SPI1_DR_ADDR),
       Event.write (Reg.M0AR ILI9341_DMA ILI9341_DMA_STREAM) (u32 fb),
       Event.write (Reg.NDTR ILI9341_DMA ILI9341_DMA_STREAM) n,
       Event.write (Reg.CR ILI9341_DMA ILI9341_DMA_STREAM)
         (DMA_enable_TC ||| ILI9341_DMA_SETTINGS_FB ||| ILI9341_DMA_CHANNEL),
       Event.write (Reg.FCR ILI9341_DMA ILI9341_DMA_STREAM) ILI9341_DMA_FIFO_SETTINGS_FB,
       Event.pin_reset ILI9341_GPIO_PORT ILI9341_CS_PIN,
       Event.pin_set ILI9341_GPIO_PORT ILI9341_DC_PIN,
       Event.write (Reg.CR ILI9341_DMA ILI9341_DMA_STREAM)
         ((DMA_enable_TC ||| ILI9341_DMA_SETTINGS_FB ||| ILI9341_DMA_CHANNEL) ||| CR_EN_MASK),
       Event.write Reg.SPI1_CR2 (0 ||| SPI_MISC_ENABLE_DMA_TX)] := by
  obtain ⟨n, hm⟩ : ∃ n, m1 = ili9341_fb_dma_body fb xs ys xe ye n m :=
    ⟨_, (fb_dma_fill_returned fb xs ys xe ye m m1 hr).2.2⟩
  subst hm
  have e3 : u8 0x2C = 0x2C := rfl
  refine ⟨Event.nvic_enable ILI9341_NVIC_DMA_INTERRUPT ::
    (cmd_events (u8 0x2A) ++
      (data_events (u8 ((xs : Int) >>> (8 : Nat))) ++
        (data_events (u8 ((xs &&& 0xFF : Nat) : Int)) ++
          (data_events (u8 ((xe : Int) >>> (8 : Nat))) ++
            (data_events (u8 ((xe &&& 0xFF : Nat) : Int)) ++
              (cmd_events (u8 0x2B) ++
                (data_events (u8 ((ys : Int) >>> (8 : Nat))) ++
                  (data_events (u8 ((ys &&& 0xFF : Nat) : Int)) ++
                    (data_events (u8 ((ye : Int) >>> (8 : Nat))) ++
                      data_events (u8 ((ye &&& 0xFF : Nat) : Int))))))))))), n, ?_⟩
  rw [ili9341_fb_dma_body_trace]
  simp only [window_events, profile_switch_events, dma_arm_events, ILI9341_DMA_CR, e3,
    List.cons_append, List.append_assoc, List.nil_append]

theorem C7_fb_dma_fill_order_witness :
    ∃ m1 before, ili9341_fb_dma_fill 0x20000000 50 50 149 99 Machine.reset = Outcome.returned m1 ∧
      (m1.trace.drop (Machine.reset.trace ++ (before ++ cmd_events 0x2C)).length).length = 20 := by
  have hv := fb_dma_fill_valid 0x20000000 50 50 149 99 Machine.reset
    (by decide) (by decide) (by decide) (by decide) (by decide)
  obtain ⟨before, n, ht⟩ := C7_fb_dma_fill_order 0x20000000 50 50 149 99 Machine.reset _ hv
  refine ⟨_, before, hv, ?_⟩
  rw [ht, List.drop_left]
  rfl

/-- C8, the claim as stated fails (`ILI9341_DMA_SETTINGS_FB`, line 97-99): after the
usage example's call the memory data-size field (bits 13-14) of the stream's control
word is that of `DMA_feature_MSIZE_word`, not that of `DMA_feature_MSIZE_half_word`. -/
theorem C8_memory_size_is_not_half_word :
    ∃ m1, ili9341_fb_dma_fill 0x20000000 50 50 149 99 Machine.reset = Outcome.returned m1 ∧
      bit_field (m1.regs (Reg.CR ILI9341_DMA ILI9341_DMA_STREAM)) 13 2 =
        bit_field DMA_feature_MSIZE_word 13 2 ∧
      bit_field (m1.regs (Reg.CR ILI9341_DMA ILI9341_DMA_STREAM)) 13 2 ≠
        bit_field DMA_feature_MSIZE_half_word 13 2 := by
  refine ⟨_, fb_dma_fill_valid 0x20000000 50 50 149 99 Machine.reset
      (by decide) (by decide) (by decide) (by decide) (by decide), ?_, ?_⟩
  · rw [(ili9341_fb_dma_body_regs Machine.reset _ 50 50 149 99 _).2.2.2.2.2.1]; decide
  · rw [(ili9341_fb_dma_body_regs Machine.reset _ 50 50 149 99 _).2.2.2.2.2.1]; decide

/-- C8 as amended (`ili9341_fb_dma_fill`, `ili9341_fb_dma_fill_centered`,
`ILI9341_DMA_SETTINGS_FB`): when either entry point returns, DMA2 stream 2 has the
caller's buffer `fb` as memory address and the address of `SPI1->DR` as peripheral
address; its control word selects channel 2, direction memory-to-peripheral, memory
increment, peripheral data size half-word, memory data size word, memory burst of 4, and
of the interrupt enables only transfer-complete is set (the FIFO error interrupt of the
FIFO control register included). -/
theorem C8_transfer_descriptor (fb xs ys xe ye w h : Nat) (m m1 : Machine)
    (hfb : fb < 4294967296)
    (hr : ili9341_fb_dma_fill fb xs ys xe ye m = Outcome.returned m1 ∨
      ili9341_fb_dma_fill_centered fb w h m = Outcome.returned m1) :
    m1.regs (Reg.M0AR ILI9341_DMA ILI9341_DMA_STREAM) = fb ∧
    m1.regs (Reg.PAR ILI9341_DMA ILI9341_DMA_STREAM) = SPI1_BASE + 12 ∧
    m1.regs (Reg.CR ILI9341_DMA ILI9341_DMA_STREAM) =
      (DMA_enable_TC ||| DMA_feature_DIR_mem_to_periph ||| DMA_feature_MINC |||
        DMA_feature_PSIZE_half_word ||| DMA_feature_MSIZE_word ||| DMA_feature_MBURST_incr4 |||
        DMA_channel2 ||| CR_EN_MASK) ∧
    bit_field (m1.regs (Reg.CR ILI9341_DMA ILI9341_DMA_STREAM)) 25 3 = 2 ∧
    bit_field (m1.regs (Reg.CR ILI9341_DMA ILI9341_DMA_STREAM)) 6 2 = 1 ∧
    bit_field (m1.regs (Reg.CR ILI9341_DMA ILI9341_DMA_STREAM)) 10 1 = 1 ∧
    bit_field (m1.regs (Reg.CR ILI9341_DMA ILI9341_DMA_STREAM)) 11 2 = 1 ∧
    bit_field (m1.regs (Reg.CR ILI9341_DMA ILI9341_DMA_STREAM)) 13 2 = 2 ∧
    bit_field (m1.regs (Reg.CR ILI9341_DMA ILI9341_DMA_STREAM)) 23 2 = 1 ∧
    bit_field (m1.regs (Reg.CR ILI9341_DMA ILI9341_DMA_STREAM)) 1 4 = 8 ∧
    bit_field (m1.regs (Reg.FCR ILI9341_DMA ILI9341_DMA_STREAM)) 7 1 = 0 := by
  obtain ⟨a, b, c, d, n, hm⟩ : ∃ a b c d n, m1 = ili9341_fb_dma_body fb a b c d n m := by
    rcases hr with hr | hr
    · exact ⟨_, _, _, _, _, (fb_dma_fill_returned fb xs ys xe ye m m1 hr).2.2⟩
    · exact ⟨_, _, _, _, _, (fb_dma_fill_centered_returned fb w h m m1 hr).2⟩
  subst hm
  obtain ⟨-, -, hpar, hmem, -, hcr, hfcr⟩ := ili9341_fb_dma_body_regs m fb a b c d n
  have hu : u32 fb = fb := Nat.mod_eq_of_lt hfb
  rw [hpar, hmem, hcr, hfcr, hu]
  refine ⟨rfl, ?_, ?_, ?_, ?_, ?_, ?_, ?_, ?_, ?_, ?_⟩ <;> decide

theorem C8_transfer_descriptor_witness :
    ∃ m1, ili9341_fb_dma_fill_centered 0x20000000 240 240 Machine.reset = Outcome.returned m1 ∧
      m1.regs (Reg.M0AR ILI9341_DMA ILI9341_DMA_STREAM) = 0x20000000 ∧
      m1.regs (Reg.PAR ILI9341_DMA ILI9341_DMA_STREAM) = 0x4001300C ∧
      m1.regs (Reg.CR ILI9341_DMA ILI9341_DMA_STREAM) = 0x4804C51 := by
  have hv := fb_dma_fill_centered_valid 0x20000000 240 240 Machine.reset
    (by decide) (by decide) (by decide)
  obtain ⟨h1, h2, h3, -⟩ := C8_transfer_descriptor 0x20000000 0 0 0 0 240 240 Machine.reset _
    (by decide) (Or.inr hv)
  exact ⟨_, hv, h1, h2, h3⟩

/-! ## The completion handler -/

theorem and_and_eq_zero (x y g : Nat) (h : x &&& g = 0) : (x &&& y) &&& g = 0 := by
  rw [Nat.and_assoc, Nat.and_comm y g, ← Nat.and_assoc, h, Nat.zero_and]

theorem and_bit_not32_self (x f : Nat) (hf : bit_not32 f &&& f = 0) :
    (x &&& bit_not32 f) &&& f = 0 := by
  rw [Nat.and_assoc, hf, Nat.and_zero]

theorem and_bit_not32_other (x f g : Nat) (hg : bit_not32 f &&& g = g) :
    (x &&& bit_not32 f) &&& g = x &&& g := by
  rw [Nat.and_assoc, hg]

section handler
variable (m : Machine)

/-- A branch whose flag is clear does nothing. -/
theorem isr_branch_idle (f : Nat) (cb : Option (Nat → Machine → Machine))
    (h : m.regs (Reg.LISR DMA_typedef_t.DMA2) &&& f = 0) : isr_branch f cb m = m := by
  simp [isr_branch, reg_read, h]

/-- A branch whose flag is set and whose callback is compiled out only clears the flag. -/
theorem isr_branch_none (f : Nat) (h : m.regs (Reg.LISR DMA_typedef_t.DMA2) &&& f ≠ 0) :
    isr_branch f none m = reg_write (Reg.LIFCR DMA_typedef_t.DMA2) f m := by
  simp [isr_branch, isr_callback, reg_read, h]

/-- The transfer-complete branch as the display driver builds it, flag set. -/
theorem isr_branch_tc (h : m.regs (Reg.LISR DMA_typedef_t.DMA2) &&& DMA_Stream2_transfer_complete ≠ 0) :
    isr_branch DMA_Stream2_transfer_complete (some dma2_stream2_tc) m =
      spi_enable (spi_setup ILI9341_SPI_FEATURES_CMD 0 0 (spi_disable
        (io_pin_set ILI9341_GPIO_PORT ILI9341_CS_PIN
          (reg_write (Reg.LIFCR DMA_typedef_t.DMA2) DMA_Stream2_transfer_complete m)))) := by
  simp [isr_branch, isr_callback, reg_read, h, dma2_stream2_tc, ili9341_deselect,
    ili9341_spi_control_transmition_mode]

/-- What a branch without callback does, flag set or not. -/
theorem isr_branch_none_spec (f : Nat) :
    ∃ l, (isr_branch f none m).trace = m.trace ++ l ∧
      (∀ e ∈ l, e = Event.write (Reg.LIFCR DMA_typedef_t.DMA2) f) ∧
      (isr_branch f none m).pins = m.pins ∧
      (∀ r, r ≠ Reg.LISR DMA_typedef_t.DMA2 → (isr_branch f none m).regs r = m.regs r) ∧
      (∀ g, bit_not32 f &&& g = g → (isr_branch f none m).regs (Reg.LISR DMA_typedef_t.DMA2) &&& g =
        m.regs (Reg.LISR DMA_typedef_t.DMA2) &&& g) := by
  by_cases h : m.regs (Reg.LISR DMA_typedef_t.DMA2) &&& f = 0
  · rw [isr_branch_idle m f none h]
    exact ⟨[], by simp, by simp, rfl, fun _ _ => rfl, fun _ _ => rfl⟩
  · rw [isr_branch_none m f h]
    refine ⟨[Event.write (Reg.LIFCR DMA_typedef_t.DMA2) f], by simp, by simp, by simp, ?_, ?_⟩
    · intro r hr
      simp [Function.update_apply, hr]
    · intro g hg
      simp [and_bit_not32_other _ _ _ hg]

/-- The status register after one branch of the handler as the display driver builds it:
the branch's own flag is clear. -/
theorem isr_branch_clears (f : Nat) (cb : Option (Nat → Machine → Machine))
    (hcb : cb = none ∨ cb = some dma2_stream2_tc) (hf : bit_not32 f &&& f = 0) :
    (isr_branch f cb m).regs (Reg.LISR DMA_typedef_t.DMA2) &&& f = 0 := by
  by_cases h : m.regs (Reg.LISR DMA_typedef_t.DMA2) &&& f = 0
  · rw [isr_branch_idle m f cb h]; exact h
  · rcases hcb with rfl | rfl
    · rw [isr_branch_none m f h]
      simp [and_bit_not32_self _ _ hf]
    · simp only [isr_branch, reg_read, ne_eq, h, not_false_eq_true, if_true, isr_callback,
        dma2_stream2_tc, ili9341_deselect, ili9341_spi_control_transmition_mode]
      rw [profile_switch_regs _ _ _ (by simp)]
      simp [and_bit_not32_self _ _ hf]

/-- A flag that is clear stays clear across a branch. -/
theorem isr_branch_keeps_clear (f g : Nat) (cb : Option (Nat → Machine → Machine))
    (hcb : cb = none ∨ cb = some dma2_stream2_tc)
    (hg : m.regs (Reg.LISR DMA_typedef_t.DMA2) &&& g = 0) :
    (isr_branch f cb m).regs (Reg.LISR DMA_typedef_t.DMA2) &&& g = 0 := by
  by_cases h : m.regs (Reg.LISR DMA_typedef_t.DMA2) &&& f = 0
  · rw [isr_branch_idle m f cb h]; exact hg
  · rcases hcb with rfl | rfl
    · rw [isr_branch_none m f h]
      simp [and_and_eq_zero _ _ _ hg]
    · simp only [isr_branch, reg_read, ne_eq, h, not_false_eq_true, if_true, isr_callback,
        dma2_stream2_tc, ili9341_deselect, ili9341_spi_control_transmition_mode]
      rw [profile_switch_regs _ _ _ (by simp)]
      simp [and_and_eq_zero _ _ _ hg]

end handler

/-- C9 (`dma2_stream2_isr`, `dma2_stream2_tc`, `ili9341_spi_control_transmition_mode`):
when the handler as built by the display driver runs with the stream-2
transfer-complete flag set, its accesses are, in this order: the store to the flag-clear
register that clears transfer-complete; chip-select high; the switch to the command
profile as `spi_disable`, `spi_setup`, `spi_enable`. The only other accesses, before and
after, are flag-clear stores for error and half-transfer flags. On return `CR1` is the
command profile with the enable bit set, `CR2` is zero and chip-select is high. -/
theorem C9_completion_handshake (m : Machine)
    (h : reg_read (Reg.LISR DMA_typedef_t.DMA2) m &&& DMA_Stream2_transfer_complete ≠ 0) :
    ∃ pre post, (dma2_stream2_isr ili9341_callbacks m).trace = m.trace ++ pre ++
        [Event.write (Reg.LIFCR DMA_typedef_t.DMA2) DMA_Stream2_transfer_complete,
         Event.pin_set ILI9341_GPIO_PORT ILI9341_CS_PIN,
         Event.wait Reg.SPI1_SR SPI_SR_BSY_MASK false,
         Event.write Reg.SPI1_CR1 (m.regs Reg.SPI1_CR1 &&& bit_not32 SPI_CR1_SPIEN_MASK),
         Event.wait Reg.SPI1_CR1 SPI_CR1_SPIEN_MASK false,
         Event.write Reg.SPI1_CR1 ILI9341_SPI_FEATURES_CMD,
         Event.write Reg.SPI1_CR2 0,
         Event.write Reg.SPI1_CR1 (ILI9341_SPI_FEATURES_CMD ||| SPI_CR1_SPIEN_MASK),
         Event.wait Reg.SPI1_CR1 SPI_CR1_SPIEN_MASK true,
         Event.wait Reg.SPI1_SR SPI_SR_BSY_MASK false] ++ post ∧
      (∀ e ∈ pre ++ post, ∃ f, e = Event.write (Reg.LIFCR DMA_typedef_t.DMA2) f) ∧
      (dma2_stream2_isr ili9341_callbacks m).regs Reg.SPI1_CR1 =
        (ILI9341_SPI_FEATURES_CMD ||| SPI_CR1_SPIEN_MASK) ∧
      (dma2_stream2_isr ili9341_callbacks m).regs Reg.SPI1_CR2 = 0 ∧
      (dma2_stream2_isr ili9341_callbacks m).pins ILI9341_GPIO_PORT ILI9341_CS_PIN = true := by
  obtain ⟨la, ta, hla, pa, ra, ga⟩ := isr_branch_none_spec m DMA_Stream2_frame_error
  obtain ⟨lb, tb, hlb, pb, rb, gb⟩ := isr_branch_none_spec
    (isr_branch DMA_Stream2_frame_error none m) DMA_Stream2_direct_mode_error
  obtain ⟨lc, tc, hlc, pc, rc, gc⟩ := isr_branch_none_spec
    (isr_branch DMA_Stream2_direct_mode_error none (isr_branch DMA_Stream2_frame_error none m))
    DMA_Stream2_transfer_error
  have htc : (isr_branch DMA_Stream2_transfer_error none (isr_branch DMA_Stream2_direct_mode_error
      none (isr_branch DMA_Stream2_frame_error none m))).regs (Reg.LISR DMA_typedef_t.DMA2) &&&
      DMA_Stream2_transfer_complete ≠ 0 := by
    rw [gc _ (by decide), gb _ (by decide), ga _ (by decide)]
    exact h
  have hcr1 : (isr_branch DMA_Stream2_transfer_error none (isr_branch
      DMA_Stream2_direct_mode_error none (isr_branch DMA_Stream2_frame_error none m))).regs
      Reg.SPI1_CR1 = m.regs Reg.SPI1_CR1 := by
    rw [rc _ (by simp), rb _ (by simp), ra _ (by simp)]
  obtain ⟨le, te, hle, pe, re, -⟩ := isr_branch_none_spec
    (isr_branch DMA_Stream2_transfer_complete (some dma2_stream2_tc)
      (isr_branch DMA_Stream2_transfer_error none (isr_branch DMA_Stream2_direct_mode_error none
        (isr_branch DMA_Stream2_frame_error none m)))) DMA_Stream2_half_transfer
  have hisr : dma2_stream2_isr ili9341_callbacks m =
      isr_branch DMA_Stream2_half_transfer none
        (isr_branch DMA_Stream2_transfer_complete (some dma2_stream2_tc)
          (isr_branch DMA_Stream2_transfer_error none (isr_branch DMA_Stream2_direct_mode_error
            none (isr_branch DMA_Stream2_frame_error none m)))) := rfl
  rw [hisr]
  refine ⟨la ++ lb ++ lc, le, ?_, ?_, ?_, ?_, ?_⟩
  · rw [te, isr_branch_tc _ htc, profile_switch_trace]
    simp only [io_pin_set_trace, io_pin_set_regs, reg_write_trace, reg_write_regs_LIFCR, tc, tb, ta,
      profile_switch_events, List.append_assoc, List.cons_append, List.nil_append]
    rw [Function.update_noteq (by simp), hcr1]
  · intro e he
    simp only [List.mem_append] at he
    rcases he with ((he | he) | he) | he
    · exact ⟨_, hla e he⟩
    · exact ⟨_, hlb e he⟩
    · exact ⟨_, hlc e he⟩
    · exact ⟨_, hle e he⟩
  · rw [re _ (by simp), isr_branch_tc _ htc, profile_switch_regs _ _ _ (by simp)]
    simp
  · rw [re _ (by simp), isr_branch_tc _ htc, profile_switch_regs _ _ _ (by simp)]
    simp
  · rw [pe, isr_branch_tc _ htc, profile_switch_pins]
    simp [io_pin_set]

theorem C9_completion_handshake_witness :
    (dma2_stream2_isr ili9341_callbacks Machine.transfer_complete).regs Reg.SPI1_CR1 =
        (ILI9341_SPI_FEATURES_CMD ||| SPI_CR1_SPIEN_MASK) ∧
      (dma2_stream2_isr ili9341_callbacks Machine.transfer_complete).pins
        ILI9341_GPIO_PORT ILI9341_CS_PIN = true := by
  obtain ⟨_, _, _, _, h1, _, h3⟩ := C9_completion_handshake Machine.transfer_complete
    (by decide)
  exact ⟨h1, h3⟩

/-- C10 (`dma2_stream2_isr`, lines 239-284): after one run of the handler as built by the
display driver the transfer-complete status bit is clear, and a second run started in
that state (no transfer in between, no new flag) returns the machine unchanged: no
callback runs, chip-select is not touched, the SPI is not reconfigured, nothing is
added to the trace. -/
theorem C10_second_invocation_is_inert (m : Machine) :
    reg_read (Reg.LISR DMA_typedef_t.DMA2) (dma2_stream2_isr ili9341_callbacks m) &&&
        DMA_Stream2_transfer_complete = 0 ∧
      dma2_stream2_isr ili9341_callbacks (dma2_stream2_isr ili9341_callbacks m) =
        dma2_stream2_isr ili9341_callbacks m := by
  have n1 : (none : Option (Nat → Machine → Machine)) = none ∨
      (none : Option (Nat → Machine → Machine)) = some dma2_stream2_tc := Or.inl rfl
  have n2 : some dma2_stream2_tc = none ∨ some dma2_stream2_tc = some dma2_stream2_tc :=
    Or.inr rfl
  have hfe : (dma2_stream2_isr ili9341_callbacks m).regs (Reg.LISR DMA_typedef_t.DMA2) &&&
      DMA_Stream2_frame_error = 0 :=
    isr_branch_keeps_clear _ _ _ _ n1 (isr_branch_keeps_clear _ _ _ _ n2
      (isr_branch_keeps_clear _ _ _ _ n1 (isr_branch_keeps_clear _ _ _ _ n1
        (isr_branch_clears _ _ _ n1 (by decide)))))
  have hdme : (dma2_stream2_isr ili9341_callbacks m).regs (Reg.LISR DMA_typedef_t.DMA2) &&&
      DMA_Stream2_direct_mode_error = 0 :=
    isr_branch_keeps_clear _ _ _ _ n1 (isr_branch_keeps_clear _ _ _ _ n2
      (isr_branch_keeps_clear _ _ _ _ n1 (isr_branch_clears _ _ _ n1 (by decide))))
  have hte : (dma2_stream2_isr ili9341_callbacks m).regs (Reg.LISR DMA_typedef_t.DMA2) &&&
      DMA_Stream2_transfer_error = 0 :=
    isr_branch_keeps_clear _ _ _ _ n1 (isr_branch_keeps_clear _ _ _ _ n2
      (isr_branch_clears _ _ _ n1 (by decide)))
  have htc : (dma2_stream2_isr ili9341_callbacks m).regs (Reg.LISR DMA_typedef_t.DMA2) &&&
      DMA_Stream2_transfer_complete = 0 :=
    isr_branch_keeps_clear _ _ _ _ n1 (isr_branch_clears _ _ _ n2 (by decide))
  have hht : (dma2_stream2_isr ili9341_callbacks m).regs (Reg.LISR DMA_typedef_t.DMA2) &&&
      DMA_Stream2_half_transfer = 0 :=
    isr_branch_clears _ _ _ n1 (by decide)
  refine ⟨htc, ?_⟩
  generalize dma2_stream2_isr ili9341_callbacks m = m1 at hfe hdme hte htc hht
  unfold dma2_stream2_isr
  simp only [isr_branch_idle m1 _ _ hfe, isr_branch_idle m1 _ _ hdme, isr_branch_idle m1 _ _ hte,
    isr_branch_idle m1 _ _ htc, isr_branch_idle m1 _ _ hht]

/-! ## The DMA driver for an arbitrary stream -/

section dma
variable (m : Machine) (DMA : DMA_typedef_t) (stream : DMA_stream_num_t)

theorem dma_clear_interrupts_eq (interrupts : Nat) :
    dma_clear_interrupts DMA stream interrupts m =
      reg_write (flag_clear_reg DMA stream) (u32 (interrupts <<< flag_shift stream)) m := by
  fin_cases stream <;> rfl

theorem reg_write_flag_clear_regs (v : Nat) :
    (reg_write (flag_clear_reg DMA stream) v m).regs =
      Function.update m.regs (flag_status_reg DMA stream)
        (m.regs (flag_status_reg DMA stream) &&& bit_not32 v) := by
  unfold flag_clear_reg flag_status_reg
  split <;> rfl

theorem flag_status_reg_ne (r : Reg) (h1 : ∀ d, r ≠ Reg.LISR d) (h2 : ∀ d, r ≠ Reg.HISR d) :
    r ≠ flag_status_reg DMA stream := by
  unfold flag_status_reg
  split
  · exact h1 _
  · exact h2 _

/-- All accesses of `dma_setup_transfer`, in program order. -/
theorem dma_setup_transfer_trace (channel mem bufflen periph interrupts features fifo : Nat) :
    (dma_setup_transfer DMA stream channel mem bufflen periph interrupts features fifo m).trace =
      m.trace ++
        [Event.write (Reg.CR DMA stream) (m.regs (Reg.CR DMA stream) &&& bit_not32 CR_EN_MASK),
         Event.wait (Reg.CR DMA stream) CR_EN_MASK false,
         Event.write (flag_clear_reg DMA stream) (u32 (DMA_clear_all <<< flag_shift stream)),
         Event.write (Reg.PAR DMA stream) (u32 periph),
         Event.write (Reg.M0AR DMA stream) (u32 mem),
         Event.write (Reg.NDTR DMA stream) bufflen,
         Event.write (Reg.CR DMA stream) (interrupts ||| features ||| channel),
         Event.write (Reg.FCR DMA stream) fifo] := by
  simp [dma_setup_transfer, dma_clear_interrupts_eq, reg_read_plain]

/-- The registers after `dma_setup_transfer`. -/
theorem dma_setup_transfer_regs (channel mem bufflen periph interrupts features fifo : Nat)
    (r : Reg) :
    (dma_setup_transfer DMA stream channel mem bufflen periph interrupts features fifo m).regs r =
      if r = Reg.FCR DMA stream then fifo
      else if r = Reg.CR DMA stream then interrupts ||| features ||| channel
      else if r = Reg.NDTR DMA stream then bufflen
      else if r = Reg.M0AR DMA stream then u32 mem
      else if r = Reg.PAR DMA stream then u32 periph
      else if r = flag_status_reg DMA stream then
        m.regs r &&& bit_not32 (u32 (DMA_clear_all <<< flag_shift stream))
      else m.regs r := by
  have hs : ∀ r : Reg, (∀ d, r ≠ Reg.LISR d) → (∀ d, r ≠ Reg.HISR d) →
      r ≠ flag_status_reg DMA stream := flag_status_reg_ne DMA stream
  have h1 := hs (Reg.CR DMA stream) (by simp) (by simp)
  simp only [dma_setup_transfer, dma_clear_interrupts_eq]
  rw [reg_write_regs _ _ _ (by simp) (by simp), reg_write_regs _ _ _ (by simp) (by simp),
    reg_write_regs _ _ _ (by simp) (by simp), reg_write_regs _ _ _ (by simp) (by simp),
    reg_write_regs _ _ _ (by simp) (by simp), reg_write_flag_clear_regs, busy_wait_regs,
    reg_write_regs _ _ _ (by simp) (by simp)]
  simp only [Function.update_apply]
  by_cases c1 : r = Reg.FCR DMA stream
  · simp [c1]
  by_cases c2 : r = Reg.CR DMA stream
  · simp [c2]
  by_cases c3 : r = Reg.NDTR DMA stream
  · simp [c3]
  by_cases c4 : r = Reg.M0AR DMA stream
  · simp [c4]
  by_cases c5 : r = Reg.PAR DMA stream
  · simp [c5]
  by_cases c6 : r = flag_status_reg DMA stream
  · subst c6
    simp [c1, c2, c3, c4, c5, h1.symm]
  · simp [c1, c2, c3, c4, c5, c6]

end dma

theorem flag_field_facts (mask : Nat) (hmask : mask &&& DMA_clear_all = mask)
    (stream : DMA_stream_num_t) :
    u32 (mask <<< flag_shift stream) = mask <<< flag_shift stream ∧
      (mask <<< flag_shift stream) >>> flag_shift stream = mask ∧
      (mask <<< flag_shift stream) &&& (DMA_clear_all <<< flag_shift stream) =
        mask <<< flag_shift stream ∧
      ∀ other : DMA_stream_num_t, flag_shift other ≠ flag_shift stream →
        (mask <<< flag_shift stream) &&& (DMA_clear_all <<< flag_shift other) = 0 := by
  have hle : mask ≤ 61 := by
    rw [← hmask]; exact Nat.and_le_right
  interval_cases mask <;>
    first
    | exact absurd hmask (by decide)
    | (clear hmask hle; fin_cases stream <;> decide)

theorem flag_clear_all_facts (stream : DMA_stream_num_t) :
    u32 (DMA_clear_all <<< flag_shift stream) = DMA_clear_all <<< flag_shift stream ∧
      bit_not32 (DMA_clear_all <<< flag_shift stream) &&& (DMA_clear_all <<< flag_shift stream)
        = 0 := by
  fin_cases stream <;> decide

/-! ## Claims about the DMA and SPI drivers -/

/-- C11, the claim as stated fails (`dma_setup_transfer`, lines 201-210, and
`DMA_stream_typedef_t`): the function never stores to the stream's second memory address
register `M1AR`, which keeps the value of the previous use. -/
theorem C11_m1ar_is_retained :
    Machine.stream_used.regs (Reg.M1AR DMA_typedef_t.DMA2 DMA_STREAM2) = 0x20001000 ∧
    (dma_setup_transfer DMA_typedef_t.DMA2 DMA_STREAM2 DMA_channel2 0x20000000 5000 SPI1_DR_ADDR
      DMA_enable_TC ILI9341_DMA_SETTINGS_FB ILI9341_DMA_FIFO_SETTINGS_FB
      Machine.stream_used).regs (Reg.M1AR DMA_typedef_t.DMA2 DMA_STREAM2) = 0x20001000 := by
  refine ⟨rfl, ?_⟩
  rw [dma_setup_transfer_regs]
  simp [flag_status_reg, DMA_STREAM2]
  rfl

/-- C11 as amended (`dma_setup_transfer`, lines 201-210): for every controller, stream
0..7, previous register content and arguments (32-bit addresses, no argument carrying
the enable bit), afterwards PAR = periph, M0AR = mem, NDTR = bufflen,
CR = interrupts | features | channel with the enable bit clear, FCR = fifo_settings,
whatever these registers held before; the clear bits of all five flags of the stream
have been stored to its flag-clear register and these flags read as clear; the second
memory address register M1AR alone keeps its previous value. -/
theorem C11_dma_setup_transfer_overwrites (DMA : DMA_typedef_t) (stream : DMA_stream_num_t)
    (channel mem bufflen periph interrupts features fifo : Nat) (m : Machine)
    (hmem : mem < 4294967296) (hper : periph < 4294967296)
    (hen : (interrupts ||| features ||| channel) &&& CR_EN_MASK = 0) :
    (dma_setup_transfer DMA stream channel mem bufflen periph interrupts features fifo m).regs
        (Reg.PAR DMA stream) = periph ∧
    (dma_setup_transfer DMA stream channel mem bufflen periph interrupts features fifo m).regs
        (Reg.M0AR DMA stream) = mem ∧
    (dma_setup_transfer DMA stream channel mem bufflen periph interrupts features fifo m).regs
        (Reg.NDTR DMA stream) = bufflen ∧
    (dma_setup_transfer DMA stream channel mem bufflen periph interrupts features fifo m).regs
        (Reg.CR DMA stream) = (interrupts ||| features ||| channel) ∧
    (dma_setup_transfer DMA stream channel mem bufflen periph interrupts features fifo m).regs
        (Reg.CR DMA stream) &&& CR_EN_MASK = 0 ∧
    (dma_setup_transfer DMA stream channel mem bufflen periph interrupts features fifo m).regs
        (Reg.FCR DMA stream) = fifo ∧
    (dma_setup_transfer DMA stream channel mem bufflen periph interrupts features fifo m).regs
        (Reg.M1AR DMA stream) = m.regs (Reg.M1AR DMA stream) ∧
    Event.write (flag_clear_reg DMA stream) (DMA_clear_all <<< flag_shift stream) ∈
      (dma_setup_transfer DMA stream channel mem bufflen periph interrupts features fifo m).trace ∧
    (dma_setup_transfer DMA stream channel mem bufflen periph interrupts features fifo m).regs
        (flag_status_reg DMA stream) &&& (DMA_clear_all <<< flag_shift stream) = 0 := by
  have hs : ∀ r : Reg, (∀ d, r ≠ Reg.LISR d) → (∀ d, r ≠ Reg.HISR d) →
      r ≠ flag_status_reg DMA stream := flag_status_reg_ne DMA stream
  obtain ⟨hu, hz⟩ := flag_clear_all_facts stream
  have hmem32 : u32 mem = mem := Nat.mod_eq_of_lt hmem
  have hper32 : u32 periph = periph := Nat.mod_eq_of_lt hper
  refine ⟨?_, ?_, ?_, ?_, ?_, ?_, ?_, ?_, ?_⟩
  · rw [dma_setup_transfer_regs]; simp [hper32]
  · rw [dma_setup_transfer_regs]; simp [hmem32]
  · rw [dma_setup_transfer_regs]; simp
  · rw [dma_setup_transfer_regs]; simp
  · rw [dma_setup_transfer_regs]; simp [hen]
  · rw [dma_setup_transfer_regs]; simp
  · rw [dma_setup_transfer_regs]
    simp [hs (Reg.M1AR DMA stream) (by simp) (by simp)]
  · rw [dma_setup_transfer_trace, hu]; simp
  · rw [dma_setup_transfer_regs, hu]
    simp [(hs (Reg.FCR DMA stream) (by simp) (by simp)).symm,
      (hs (Reg.CR DMA stream) (by simp) (by simp)).symm,
      (hs (Reg.NDTR DMA stream) (by simp) (by simp)).symm,
      (hs (Reg.M0AR DMA stream) (by simp) (by simp)).symm,
      (hs (Reg.PAR DMA stream) (by simp) (by simp)).symm, and_bit_not32_self _ _ hz]

/-- The display driver's own call, on a stream that was in use. -/
theorem C11_dma_setup_transfer_overwrites_witness :
    (dma_setup_transfer DMA_typedef_t.DMA2 DMA_STREAM2 DMA_channel2 0x20000000 5000 SPI1_DR_ADDR
      DMA_enable_TC ILI9341_DMA_SETTINGS_FB ILI9341_DMA_FIFO_SETTINGS_FB
      Machine.stream_used).regs (Reg.NDTR DMA_typedef_t.DMA2 DMA_STREAM2) = 5000 ∧
    (dma_setup_transfer DMA_typedef_t.DMA2 DMA_STREAM2 DMA_channel2 0x20000000 5000 SPI1_DR_ADDR
      DMA_enable_TC ILI9341_DMA_SETTINGS_FB ILI9341_DMA_FIFO_SETTINGS_FB
      Machine.stream_used).regs (Reg.CR DMA_typedef_t.DMA2 DMA_STREAM2) &&& CR_EN_MASK = 0 := by
  obtain ⟨_, _, h3, _, h5, _⟩ := C11_dma_setup_transfer_overwrites DMA_typedef_t.DMA2
    DMA_STREAM2 DMA_channel2 0x20000000 5000 SPI1_DR_ADDR DMA_enable_TC ILI9341_DMA_SETTINGS_FB
    ILI9341_DMA_FIFO_SETTINGS_FB Machine.stream_used (by decide) (by decide) (by decide)
  exact ⟨h3, h5⟩

/-- C12 (`dma_setup_transfer`, lines 201-210): for every controller, stream, arguments
and initial state, a running stream included, the first access is the store that clears
the enable bit of the stream's control register, the second the loop that reads the bit
back as 0; the stores to PAR, M0AR, NDTR, CR (the configuration word) and FCR all come
after these two, in this order, preceded only by the flag-clear store. -/
theorem C12_dma_setup_transfer_disables_first (DMA : DMA_typedef_t) (stream : DMA_stream_num_t)
    (channel mem bufflen periph interrupts features fifo : Nat) (m : Machine) :
    (m.regs (Reg.CR DMA stream) &&& bit_not32 CR_EN_MASK) &&& CR_EN_MASK = 0 ∧
    (dma_setup_transfer DMA stream channel mem bufflen periph interrupts features fifo m).trace =
      m.trace ++
        [Event.write (Reg.CR DMA stream) (m.regs (Reg.CR DMA stream) &&& bit_not32 CR_EN_MASK),
         Event.wait (Reg.CR DMA stream) CR_EN_MASK false,
         Event.write (flag_clear_reg DMA stream) (u32 (DMA_clear_all <<< flag_shift stream)),
         Event.write (Reg.PAR DMA stream) (u32 periph),
         Event.write (Reg.M0AR DMA stream) (u32 mem),
         Event.write (Reg.NDTR DMA stream) bufflen,
         Event.write (Reg.CR DMA stream) (interrupts ||| features ||| channel),
         Event.write (Reg.FCR DMA stream) fifo] :=
  ⟨and_bit_not32_self _ _ (by decide), dma_setup_transfer_trace m DMA stream _ _ _ _ _ _ _⟩

/-- C13 (`dma_stream_n_poll_ready`, `ili9341_poll_dma_ready`): for every register state,
controller and stream the poll is one load of the stream's element counter: it returns 1
exactly when NDTR is 0 and 0 otherwise, and `ili9341_poll_dma_ready` is the poll of DMA2
stream 2 (the poll has no machine result: it stores nothing). Right after
`ili9341_fb_dma_fill` for the region (10,10)-(109,59) the counter holds 5000 and the
poll returns 0. -/
theorem C13_poll_ready (DMA : DMA_typedef_t) (stream : DMA_stream_num_t) (fb : Nat)
    (m : Machine) :
    (dma_stream_n_poll_ready DMA stream m = 1 ↔ m.regs (Reg.NDTR DMA stream) = 0) ∧
    (dma_stream_n_poll_ready DMA stream m = 0 ↔ m.regs (Reg.NDTR DMA stream) ≠ 0) ∧
    ili9341_poll_dma_ready m = dma_stream_n_poll_ready DMA_typedef_t.DMA2 DMA_STREAM2 m ∧
    ∃ m1, ili9341_fb_dma_fill fb 10 10 109 59 m = Outcome.returned m1 ∧
      m1.regs (Reg.NDTR DMA_typedef_t.DMA2 DMA_STREAM2) = 5000 ∧
      ili9341_poll_dma_ready m1 = 0 := by
  have hv := fb_dma_fill_valid fb 10 10 109 59 m (by decide) (by decide) (by decide) (by decide)
    (by decide)
  have hn := (ili9341_fb_dma_body_regs m fb 10 10 109 59 ((109 - 10 + 1) * (59 - 10 + 1))).2.2.2.2.1
  refine ⟨?_, ?_, rfl, _, hv, hn, ?_⟩
  · unfold dma_stream_n_poll_ready
    rw [reg_read_plain _ _ (by simp) (by simp)]
    split <;> simp_all
  · unfold dma_stream_n_poll_ready
    rw [reg_read_plain _ _ (by simp) (by simp)]
    split <;> simp_all
  · unfold ili9341_poll_dma_ready dma_stream_n_poll_ready
    rw [reg_read_plain _ _ (by simp) (by simp), hn]
    rfl

/-- C14 (`dma_clear_interrupts`, lines 157-171): for every stream 0..7 and every mask
within `DMA_clear_all`, the one access is a store to the low flag-clear register (streams
0-3) or the high one (streams 4-7) of the mask shifted left by 0, 6, 16 or 22 for stream
mod 4 = 0, 1, 2, 3; the value's bits are the requested flags in the stream's own field
and it has no flag bit of a stream with another field. For stream 2 the bits of frame
error, direct-mode error, transfer error, half transfer and transfer complete are bits
16, 18, 19, 20 and 21, the flags `dma2_stream2_isr` tests. -/
theorem C14_dma_clear_interrupts (DMA : DMA_typedef_t) (stream : DMA_stream_num_t)
    (mask : Nat) (m : Machine) (hmask : mask &&& DMA_clear_all = mask) :
    (dma_clear_interrupts DMA stream mask m).trace =
      m.trace ++ [Event.write (if stream.val ≤ 3 then Reg.LIFCR DMA else Reg.HIFCR DMA)
        (mask <<< [0, 6, 16, 22].getD (stream.val % 4) 0)] ∧
    (mask <<< flag_shift stream) >>> flag_shift stream = mask ∧
    (mask <<< flag_shift stream) &&& (DMA_clear_all <<< flag_shift stream) =
      mask <<< flag_shift stream ∧
    (∀ other : DMA_stream_num_t, flag_shift other ≠ flag_shift stream →
      (mask <<< flag_shift stream) &&& (DMA_clear_all <<< flag_shift other) = 0) ∧
    DMA_clear_FE <<< flag_shift DMA_STREAM2 = DMA_Stream2_frame_error ∧
    DMA_clear_DME <<< flag_shift DMA_STREAM2 = DMA_Stream2_direct_mode_error ∧
    DMA_clear_TE <<< flag_shift DMA_STREAM2 = DMA_Stream2_transfer_error ∧
    DMA_clear_HT <<< flag_shift DMA_STREAM2 = DMA_Stream2_half_transfer ∧
    DMA_clear_TC <<< flag_shift DMA_STREAM2 = DMA_Stream2_transfer_complete ∧
    [DMA_Stream2_frame_error, DMA_Stream2_direct_mode_error, DMA_Stream2_transfer_error,
      DMA_Stream2_half_transfer, DMA_Stream2_transfer_complete] =
      [2 ^ 16, 2 ^ 18, 2 ^ 19, 2 ^ 20, 2 ^ 21] := by
  obtain ⟨h1, h2, h3, h4⟩ := flag_field_facts mask hmask stream
  refine ⟨?_, h2, h3, h4, by decide, by decide, by decide, by decide, by decide, by decide⟩
  rw [dma_clear_interrupts_eq, reg_write_trace, h1]
  rfl

theorem C14_dma_clear_interrupts_witness :
    (dma_clear_interrupts DMA_typedef_t.DMA2 DMA_STREAM2 DMA_clear_TC Machine.reset).trace =
      [Event.write (Reg.LIFCR DMA_typedef_t.DMA2) (2 ^ 21)] := by
  have h := (C14_dma_clear_interrupts DMA_typedef_t.DMA2 DMA_STREAM2 DMA_clear_TC Machine.reset
    (by decide)).1
  rw [h]
  rfl

/-- C15 (`spi_setup`, `ili9341_spi_control_transmition_mode`,
`ili9341_spi_fb_transmition_mode`): for every previous content of CR1 and CR2, after
`spi_setup` CR1 equals features and CR2 equals misc | interrupts. After the switch to the
command profile CR1 is exactly `ILI9341_SPI_FEATURES_CMD` plus the enable bit (frame
format bit 11 clear: 8-bit frames) and CR2 is 0 (both DMA request bits clear); after the
switch to the streaming profile CR1 is exactly `ILI9341_SPI_FEATURES_DMA` plus the enable
bit (bit 11 set: 16-bit frames, bit 7 clear: MSB first) and CR2 is 0; nothing of the
previous content of CR1 and CR2 remains. -/
theorem C15_profile_switch_overwrites (features misc interrupts : Nat) (m : Machine) :
    (spi_setup features misc interrupts m).regs Reg.SPI1_CR1 = features ∧
    (spi_setup features misc interrupts m).regs Reg.SPI1_CR2 = (misc ||| interrupts) ∧
    (ili9341_spi_control_transmition_mode m).regs Reg.SPI1_CR1 =
      (ILI9341_SPI_FEATURES_CMD ||| SPI_CR1_SPIEN_MASK) ∧
    (ili9341_spi_control_transmition_mode m).regs Reg.SPI1_CR2 = 0 ∧
    bit_field ((ili9341_spi_control_transmition_mode m).regs Reg.SPI1_CR1) 11 1 = 0 ∧
    bit_field ((ili9341_spi_control_transmition_mode m).regs Reg.SPI1_CR2) 0 2 = 0 ∧
    (ili9341_spi_control_transmition_mode m).regs Reg.SPI1_CR1 &&&
      bit_not32 SPI_CR1_SPIEN_MASK = ILI9341_SPI_FEATURES_CMD ∧
    (ili9341_spi_fb_transmition_mode m).regs Reg.SPI1_CR1 =
      (ILI9341_SPI_FEATURES_DMA ||| SPI_CR1_SPIEN_MASK) ∧
    (ili9341_spi_fb_transmition_mode m).regs Reg.SPI1_CR2 = 0 ∧
    bit_field ((ili9341_spi_fb_transmition_mode m).regs Reg.SPI1_CR1) 11 1 = 1 ∧
    bit_field ((ili9341_spi_fb_transmition_mode m).regs Reg.SPI1_CR1) 7 1 = 0 ∧
    (ili9341_spi_fb_transmition_mode m).regs Reg.SPI1_CR1 &&&
      bit_not32 SPI_CR1_SPIEN_MASK = ILI9341_SPI_FEATURES_DMA := by
  have hc1 : (ili9341_spi_control_transmition_mode m).regs Reg.SPI1_CR1 =
      (ILI9341_SPI_FEATURES_CMD ||| SPI_CR1_SPIEN_MASK) := by
    unfold ili9341_spi_control_transmition_mode
    rw [profile_switch_regs _ _ _ (by simp)]; simp
  have hc2 : (ili9341_spi_control_transmition_mode m).regs Reg.SPI1_CR2 = 0 := by
    unfold ili9341_spi_control_transmition_mode
    rw [profile_switch_regs _ _ _ (by simp)]; simp
  have hf1 : (ili9341_spi_fb_transmition_mode m).regs Reg.SPI1_CR1 =
      (ILI9341_SPI_FEATURES_DMA ||| SPI_CR1_SPIEN_MASK) := by
    unfold ili9341_spi_fb_transmition_mode
    rw [profile_switch_regs _ _ _ (by simp)]; simp
  have hf2 : (ili9341_spi_fb_transmition_mode m).regs Reg.SPI1_CR2 = 0 := by
    unfold ili9341_spi_fb_transmition_mode
    rw [profile_switch_regs _ _ _ (by simp)]; simp
  rw [hc1, hc2, hf1, hf2]
  refine ⟨?_, ?_, rfl, rfl, by decide, by decide, by decide, rfl, rfl, by decide, by decide,
    by decide⟩
  · simp [spi_setup, reg_write_regs]
  · simp [spi_setup, reg_write_regs]

/-! ## Filling the screen -/

theorem ili9341_fill_loop_trace (n color : Nat) (m : Machine) :
    (ili9341_fill_loop n color m).trace =
      m.trace ++ (List.replicate n (pixel_events color)).flatten := by
  induction n generalizing m with
  | zero => simp [ili9341_fill_loop]
  | succ n ih =>
    rw [ili9341_fill_loop, ih]
    simp [spi_transmit_only, pixel_events, List.replicate_succ]

theorem ili9341_fill_loop_pins (n color : Nat) (m : Machine) :
    (ili9341_fill_loop n color m).pins = m.pins := by
  induction n generalizing m with
  | zero => rfl
  | succ n ih =>
    rw [ili9341_fill_loop, ih]
    simp [spi_transmit_only]

/-- All accesses of `ili9341_fill`. -/
theorem ili9341_fill_trace (color : Nat) (m : Machine) :
    (ili9341_fill color m).trace = m.trace ++
      (cmd_events 0x2A ++ (data_events 0 ++ (data_events 0 ++ (data_events 0 ++
        (data_events 0xEF ++ (cmd_events 0x2B ++ (data_events 0 ++ (data_events 0 ++
        (data_events 1 ++ (data_events 0x3F ++ (cmd_events 0x2C ++
        ([Event.pin_reset ILI9341_GPIO_PORT ILI9341_CS_PIN,
          Event.pin_set ILI9341_GPIO_PORT ILI9341_DC_PIN] ++
        ((List.replicate (240 * 320) (pixel_events color)).flatten ++
        [Event.pin_set ILI9341_GPIO_PORT ILI9341_CS_PIN]))))))))))))) := by
  have e1 : u8 0x2A = 0x2A := rfl
  have e2 : u8 0x2B = 0x2B := rfl
  have e3 : u8 0x2C = 0x2C := rfl
  have e4 : u8 0 = 0 := rfl
  have e5 : u8 0xEF = 0xEF := rfl
  have e6 : u8 1 = 1 := rfl
  have e7 : u8 0x3F = 0x3F := rfl
  simp only [ili9341_fill, ili9341_deselect, ili9341_select, ili9341_dc_data, io_pin_set_trace,
    io_pin_reset_trace, ili9341_fill_loop_trace, ili9341_send_cmd_trace, ili9341_send_data_trace,
    e1, e2, e3, e4, e5, e6, e7, List.append_assoc, List.cons_append, List.nil_append]

theorem cs_dc_bytes_cmd (cs dc : Bool) (c : Nat) (rest : List Event) :
    cs_dc_bytes cs dc (cmd_events c ++ rest) = (false, false, c) :: cs_dc_bytes true false rest := by
  simp [cmd_events, cs_dc_bytes, ILI9341_CS_PIN, ILI9341_DC_PIN]

theorem cs_dc_bytes_data (cs dc : Bool) (c : Nat) (rest : List Event) :
    cs_dc_bytes cs dc (data_events c ++ rest) = (false, true, c) :: cs_dc_bytes true true rest := by
  simp [data_events, cs_dc_bytes, ILI9341_CS_PIN, ILI9341_DC_PIN]

theorem cs_dc_bytes_pixels (cs dc : Bool) (color n : Nat) (rest : List Event)
    (hc : color < 65536) :
    cs_dc_bytes cs dc ((List.replicate n (pixel_events color)).flatten ++ rest) =
      (List.replicate n [(cs, dc, color >>> 8), (cs, dc, color &&& 0xFF)]).flatten ++
        cs_dc_bytes cs dc rest := by
  induction n with
  | zero => simp
  | succ n ih =>
    simp only [List.replicate_succ, List.flatten_cons, List.append_assoc]
    rw [← ih]
    simp only [pixel_events, u8_shr _ hc, u8_and]
    simp [cs_dc_bytes]

theorem cs_dc_bytes_pixel_stream (cs dc : Bool) (color n : Nat) (hc : color < 65536) :
    cs_dc_bytes cs dc (Event.pin_reset ILI9341_GPIO_PORT ILI9341_CS_PIN ::
        Event.pin_set ILI9341_GPIO_PORT ILI9341_DC_PIN ::
      ((List.replicate n (pixel_events color)).flatten ++
        [Event.pin_set ILI9341_GPIO_PORT ILI9341_CS_PIN])) =
      (List.replicate n [(false, true, color >>> 8), (false, true, color &&& 0xFF)]).flatten := by
  have hp := cs_dc_bytes_pixels false true color n
    [Event.pin_set ILI9341_GPIO_PORT ILI9341_CS_PIN] hc
  have ht : cs_dc_bytes false true [Event.pin_set ILI9341_GPIO_PORT ILI9341_CS_PIN] = [] := by
    simp [cs_dc_bytes]
  rw [ht, List.append_nil] at hp
  rw [← hp]
  simp [cs_dc_bytes, ILI9341_CS_PIN, ILI9341_DC_PIN]

/-- C18 (`ili9341_fill`, lines 316-333): for every 16-bit color the accesses are the
column command 0x2A with parameters 0x00, 0x00, 0x00, 0xEF, the row command 0x2B with
parameters 0x00, 0x00, 0x01, 0x3F and the memory-write command 0x2C; then chip-select
low and data/command high; then 240*320 = 76800 times the two bytes color>>8 and
color&0xFF, with no change of either line in between; and last chip-select high. Every
byte is stored with chip-select low, the three opcodes with data/command low, all other
bytes with it high. -/
theorem C18_ili9341_fill (color : Nat) (m : Machine) (cs0 dc0 : Bool) (hc : color < 65536) :
    (ili9341_fill color m).trace = m.trace ++
      (cmd_events 0x2A ++ (data_events 0 ++ (data_events 0 ++ (data_events 0 ++
        (data_events 0xEF ++ (cmd_events 0x2B ++ (data_events 0 ++ (data_events 0 ++
        (data_events 1 ++ (data_events 0x3F ++ (cmd_events 0x2C ++
        ([Event.pin_reset ILI9341_GPIO_PORT ILI9341_CS_PIN,
          Event.pin_set ILI9341_GPIO_PORT ILI9341_DC_PIN] ++
        ((List.replicate 76800 (pixel_events color)).flatten ++
        [Event.pin_set ILI9341_GPIO_PORT ILI9341_CS_PIN]))))))))))))) ∧
    cs_dc_bytes cs0 dc0 ((ili9341_fill color m).trace.drop m.trace.length) =
      [(false, false, 0x2A), (false, true, 0x00), (false, true, 0x00), (false, true, 0x00),
       (false, true, 0xEF), (false, false, 0x2B), (false, true, 0x00), (false, true, 0x00),
       (false, true, 0x01), (false, true, 0x3F), (false, false, 0x2C)] ++
      (List.replicate 76800 [(false, true, color >>> 8), (false, true, color &&& 0xFF)]).flatten ∧
    (ili9341_fill color m).pins ILI9341_GPIO_PORT ILI9341_CS_PIN = true := by
  refine ⟨ili9341_fill_trace color m, ?_, ?_⟩
  · have h76 : 240 * 320 = 76800 := rfl
    rw [ili9341_fill_trace, List.drop_left, h76]
    simp only [cs_dc_bytes_cmd, cs_dc_bytes_data, List.cons_append, List.nil_append,
      cs_dc_bytes_pixel_stream _ _ _ _ hc]
  · simp [ili9341_fill, ili9341_deselect, io_pin_set]

/-- The usage example `ili9341_fill(0xF800)` (red). -/
theorem C18_ili9341_fill_witness :
    cs_dc_bytes true false ((ili9341_fill 0xF800 Machine.reset).trace.drop
        Machine.reset.trace.length) =
      [(false, false, 0x2A), (false, true, 0x00), (false, true, 0x00), (false, true, 0x00),
       (false, true, 0xEF), (false, false, 0x2B), (false, true, 0x00), (false, true, 0x00),
       (false, true, 0x01), (false, true, 0x3F), (false, false, 0x2C)] ++
      (List.replicate 76800 [(false, true, 0xF800 >>> 8), (false, true, 0xF800 &&& 0xFF)]).flatten :=
  (C18_ili9341_fill 0xF800 Machine.reset true false (by decide)).2.1

/-! ## Decimal output on the UART -/

theorem decimal_digits_lsd_small (value : Nat) (h : value < 10) :
    (decimal_digits value).reverse = [value] := by
  unfold decimal_digits
  split
  · subst_vars; rfl
  · rw [List.reverse_reverse, Nat.digits_of_lt 10 value (by omega) h]

theorem decimal_digits_lsd_step (value : Nat) (h : 10 ≤ value) :
    (decimal_digits value).reverse = value % 10 :: (decimal_digits (value / 10)).reverse := by
  unfold decimal_digits
  have h1 : value ≠ 0 := by omega
  have h2 : value / 10 ≠ 0 := by omega
  simp only [h1, h2, if_false, List.reverse_reverse]
  exact Nat.digits_def' (by omega) (by omega)

theorem decimal_digits_length_pos (value : Nat) : 1 ≤ (decimal_digits value).length := by
  by_cases h : value < 10
  · have := congrArg List.length (decimal_digits_lsd_small value h)
    simp at this; omega
  · have := congrArg List.length (decimal_digits_lsd_step value (by omega))
    simp at this; omega

/-- The digit loop stores the digits, least significant first, from slot `idx` on. -/
theorem dec_digits_loop_spec (value : Nat) : ∀ (idx : Nat) (buff : List (Option Nat)),
    idx + (decimal_digits value).length ≤ buff.length → buff.length ≤ 255 →
    dec_digits_loop value idx buff =
      some (idx + (decimal_digits value).length,
        buff.take idx ++ ((decimal_digits value).reverse.map (fun d => some (d + 48)) ++
          buff.drop (idx + (decimal_digits value).length))) := by
  induction value using Nat.strong_induction_on with
  | _ value ih =>
    intro idx buff h1 h2
    have hpos := decimal_digits_length_pos value
    have hidx : idx < buff.length := by omega
    have hmod : (idx + 1) % 256 = idx + 1 := by omega
    rw [dec_digits_loop]
    simp only [hidx, if_true, hmod]
    by_cases hv : value < 10
    · have hd : value / 10 = 0 := by omega
      have hl := decimal_digits_lsd_small value hv
      have hlen : (decimal_digits value).length = 1 := by
        have := congrArg List.length hl
        simpa using this
      have hm : value % 10 = value := by omega
      simp only [hd, ne_eq, not_true_eq_false, if_false, hl, hlen, hm, List.map_cons,
        List.map_nil]
      rw [List.set_eq_take_append_cons_drop]
      simp [hidx]
    · have hd : value / 10 ≠ 0 := by omega
      have hl := decimal_digits_lsd_step value (by omega)
      have hlen : (decimal_digits value).length = (decimal_digits (value / 10)).length + 1 := by
        have := congrArg List.length hl
        simpa using this
      simp only [hd, ne_eq, not_false_eq_true, if_true]
      rw [ih (value / 10) (by omega) (idx + 1) _ (by simp; omega) (by simp; omega), hl, hlen]
      simp only [List.map_cons]
      congr 1
      · simp only [Prod.mk.injEq]
        refine ⟨by omega, ?_⟩
        rw [List.set_eq_take_append_cons_drop]
        simp only [hidx, if_true]
        have e1 : List.take (idx + 1) (List.take idx buff ++
            some (value % 10 + 48) :: List.drop (idx + 1) buff) =
            List.take idx buff ++ [some (value % 10 + 48)] := by
          rw [List.take_append_eq_append_take]
          simp [List.length_take, Nat.min_eq_left (Nat.le_of_lt hidx)]
        have e2 : List.drop (idx + 1 + (decimal_digits (value / 10)).length)
            (List.take idx buff ++ some (value % 10 + 48) :: List.drop (idx + 1) buff) =
            List.drop (idx + ((decimal_digits (value / 10)).length + 1)) buff := by
          rw [List.drop_append_eq_append_drop]
          simp [List.length_take, Nat.min_eq_left (Nat.le_of_lt hidx)]
          have e3 : idx + 1 + (decimal_digits (value / 10)).length - idx =
              (decimal_digits (value / 10)).length + 1 := by omega
          have e4 : List.drop (idx + 1 + (decimal_digits (value / 10)).length) (List.take idx buff)
              = [] := by
            apply List.drop_eq_nil_of_le
            simp [List.length_take]; omega
          rw [e3, e4]
          simp [List.drop_drop]
          congr 1; omega
        rw [e1, e2]
        simp

theorem uart_bytes_append (l1 l2 : List Event) :
    uart_bytes (l1 ++ l2) = uart_bytes l1 ++ uart_bytes l2 := by
  induction l1 with
  | nil => rfl
  | cons e l ih =>
    cases e with
    | write r v =>
      by_cases h : r = Reg.USART1_DR <;> simp [uart_bytes, h, ih]
    | wait r k b => simp [uart_bytes, ih]
    | pin_set p n => simp [uart_bytes, ih]
    | pin_reset p n => simp [uart_bytes, ih]
    | nvic_enable i => simp [uart_bytes, ih]

theorem uart_putchar_polling_trace (ch : Nat) (m : Machine) :
    (uart_putchar_polling ch m).trace =
      m.trace ++ [Event.wait Reg.USART1_SR USART_SR_TXE true, Event.write Reg.USART1_DR ch] := by
  simp [uart_putchar_polling]

/-- The print loop sends the slots `k`, `k-1`, .., 0 of the buffer. -/
theorem dec_print_loop_spec : ∀ (k : Nat) (l : List Nat) (buff : List (Option Nat)) (m : Machine),
    l.length = k + 1 → k + 1 < 255 → buff.take (k + 1) = l.map (fun d => some (d + 48)) →
    ∃ m1 t, dec_print_loop k buff m = some m1 ∧ m1.trace = m.trace ++ t ∧
      uart_bytes t = l.reverse.map (fun d => d + 48) := by
  intro k
  induction k with
  | zero =>
    intro l buff m hl _ hb
    obtain ⟨d, rfl⟩ : ∃ d, l = [d] := by
      match l, hl with
      | [d], _ => exact ⟨d, rfl⟩
    have h0 : buff[0]? = some (some (d + 48)) := by
      have := congrArg (fun x => x[0]?) hb
      simpa [List.getElem?_take] using this
    refine ⟨uart_putchar_polling (d + 48) m, _, ?_, uart_putchar_polling_trace _ _, ?_⟩
    · simp [dec_print_loop, h0]
    · simp [uart_bytes]
  | succ k ih =>
    intro l buff m hl hk hb
    have hne : l ≠ [] := by
      intro h; rw [h] at hl; simp at hl
    obtain ⟨l', d, rfl⟩ : ∃ l' d, l = l' ++ [d] :=
      ⟨l.dropLast, l.getLast hne, (List.dropLast_append_getLast hne).symm⟩
    have hl' : l'.length = k + 1 := by simpa using hl
    have hk1 : buff[k + 1]? = some (some (d + 48)) := by
      have := congrArg (fun x => x[k + 1]?) hb
      simpa [List.getElem?_take, List.getElem?_append_right, hl'] using this
    have hb' : buff.take (k + 1) = l'.map (fun d => some (d + 48)) := by
      have := congrArg (List.take (k + 1)) hb
      simpa [List.take_take, hl'] using this
    obtain ⟨m1, t, h1, h2, h3⟩ := ih l' buff (uart_putchar_polling (d + 48) m) hl' (by omega) hb'
    refine ⟨m1, [Event.wait Reg.USART1_SR USART_SR_TXE true,
      Event.write Reg.USART1_DR (d + 48)] ++ t, ?_, ?_, ?_⟩
    · rw [dec_print_loop]
      have hff : ¬ (k + 1 = 0xFF) := by omega
      simp only [hff, if_false, hk1, h1]
    · rw [h2, uart_putchar_polling_trace, List.append_assoc]
    · rw [uart_bytes_append, h3]
      simp [uart_bytes]

theorem decimal_digits_length_le (value : Nat) (hv : value < 4294967296) :
    (decimal_digits value).length ≤ 10 := by
  unfold decimal_digits
  split
  · simp
  · rename_i h
    rw [List.length_reverse]
    have h1 := Nat.base_pow_length_digits_le 10 value (by omega) h
    have h2 : 10 ^ (Nat.digits 10 value).length < 10 ^ 11 := by
      calc 10 ^ (Nat.digits 10 value).length ≤ 10 * value := h1
        _ < 10 ^ 11 := by norm_num; omega
    have h3 := (Nat.pow_lt_pow_iff_right (by omega : 1 < 10)).1 h2
    omega

/-- What makes `decimal_digits` the decimal representation: digits below ten that
evaluate to the value, the first one not zero unless the value is zero. -/
theorem decimal_digits_sound (value : Nat) :
    (∀ d ∈ decimal_digits value, d < 10) ∧
      Nat.ofDigits 10 (decimal_digits value).reverse = value ∧
      (value ≠ 0 → (decimal_digits value).head? ≠ some 0) := by
  unfold decimal_digits
  split
  · rename_i h
    subst h
    simp [Nat.ofDigits]
  · rename_i h
    refine ⟨?_, ?_, ?_⟩
    · intro d hd
      exact Nat.digits_lt_base (by omega) (List.mem_reverse.1 hd)
    · rw [List.reverse_reverse, Nat.ofDigits_digits]
    · intro _
      have hne : Nat.digits 10 value ≠ [] := by
        rwa [Ne, Nat.digits_eq_nil_iff_eq_zero]
      rw [List.head?_reverse, List.getLast?_eq_getLast _ hne]
      intro hc
      exact Nat.getLast_digit_ne_zero 10 h (Option.some.inj hc)

theorem uart_send_crlf (m : Machine) :
    (uart_send_str_polling [13, 10] m).trace = m.trace ++
      [Event.wait Reg.USART1_SR USART_SR_TXE true, Event.write Reg.USART1_DR 13,
       Event.wait Reg.USART1_SR USART_SR_TXE true, Event.write Reg.USART1_DR 10] := by
  simp [uart_send_str_polling, uart_putchar_polling_trace]

/-- C17 (`uart_send_dec_unsigned_32bit`, lines 204-221): for every 32-bit value the
function returns without indexing its 11-byte buffer out of range or reading a slot it
has not stored, and the characters it stores to the USART data register are the ASCII
decimal digits of the value, most significant first and without leading zeros (at most
ten; the single digit 0 for 0), followed by carriage return and line feed. -/
theorem C17_uart_send_dec_unsigned_32bit (value : Nat) (m : Machine)
    (hv : value < 4294967296) :
    ∃ m1, uart_send_dec_unsigned_32bit value m = some m1 ∧
      uart_bytes (m1.trace.drop m.trace.length) =
        (decimal_digits value).map (fun d => d + 48) ++ [13, 10] ∧
      (∀ d ∈ decimal_digits value, d < 10) ∧
      Nat.ofDigits 10 (decimal_digits value).reverse = value ∧
      (value ≠ 0 → (decimal_digits value).head? ≠ some 0) ∧
      (decimal_digits value).length ≤ 10 ∧
      decimal_digits 0 = [0] := by
  obtain ⟨s1, s2, s3⟩ := decimal_digits_sound value
  have hle := decimal_digits_length_le value hv
  have hpos := decimal_digits_length_pos value
  have hfill := dec_digits_loop_spec value 0 (List.replicate 11 none) (by simp; omega) (by simp)
  have hidx : (0 + (decimal_digits value).length + 255) % 256 =
      (decimal_digits value).length - 1 := by omega
  obtain ⟨m1, t, hp1, hp2, hp3⟩ := dec_print_loop_spec ((decimal_digits value).length - 1)
    (decimal_digits value).reverse
    (List.take 0 (List.replicate 11 none) ++
      ((decimal_digits value).reverse.map (fun d => some (d + 48)) ++
        List.drop (0 + (decimal_digits value).length) (List.replicate 11 none))) m
    (by simp; omega) (by omega) (by
      have e : (decimal_digits value).length - 1 + 1 = (decimal_digits value).length := by omega
      rw [e, List.take_zero, List.nil_append, List.take_append_of_le_length (by simp)]
      simp [List.take_of_length_le])
  refine ⟨uart_send_str_polling [13, 10] m1, ?_, ?_, s1, s2, s3, hle, rfl⟩
  · unfold uart_send_dec_unsigned_32bit
    rw [hfill]
    simp only [hidx, hp1]
  · rw [uart_send_crlf, hp2, List.append_assoc, List.drop_left, uart_bytes_append, hp3]
    simp [uart_bytes]

/-- The largest value: ten digits. -/
theorem C17_uart_send_dec_unsigned_32bit_witness :
    ∃ m1, uart_send_dec_unsigned_32bit 4294967295 Machine.reset = some m1 ∧
      uart_bytes m1.trace = [52, 50, 57, 52, 57, 54, 55, 50, 57, 53, 13, 10] := by
  obtain ⟨m1, h1, h2, _⟩ := C17_uart_send_dec_unsigned_32bit 4294967295 Machine.reset
    (by decide)
  refine ⟨m1, h1, ?_⟩
  have hd : decimal_digits 4294967295 = [4, 2, 9, 4, 9, 6, 7, 2, 9, 5] := by
    simp [decimal_digits]
  rw [hd] at h2
  simpa [Machine.reset] using h2

/-! ## What the handler does besides the teardown -/

/-- The handler as the display driver builds it, for every entry state: flag-clear
stores, and between them the teardown when the transfer-complete flag is set. -/
theorem ili9341_isr_spec (m : Machine) :
    ∃ pre post, (∀ e ∈ pre ++ post, ∃ f, e = Event.write (Reg.LIFCR DMA_typedef_t.DMA2) f) ∧
      (m.regs (Reg.LISR DMA_typedef_t.DMA2) &&& DMA_Stream2_transfer_complete ≠ 0 →
        (dma2_stream2_isr ili9341_callbacks m).trace = m.trace ++ pre ++
          ([Event.write (Reg.LIFCR DMA_typedef_t.DMA2) DMA_Stream2_transfer_complete,
            Event.pin_set ILI9341_GPIO_PORT ILI9341_CS_PIN] ++
            profile_switch_events (m.regs Reg.SPI1_CR1) ILI9341_SPI_FEATURES_CMD) ++ post) ∧
      (m.regs (Reg.LISR DMA_typedef_t.DMA2) &&& DMA_Stream2_transfer_complete = 0 →
        (dma2_stream2_isr ili9341_callbacks m).trace = m.trace ++ pre ++ post ∧
        (dma2_stream2_isr ili9341_callbacks m).pins = m.pins ∧
        ∀ r, r ≠ Reg.LISR DMA_typedef_t.DMA2 →
          (dma2_stream2_isr ili9341_callbacks m).regs r = m.regs r) := by
  obtain ⟨la, ta, hla, pa, ra, ga⟩ := isr_branch_none_spec m DMA_Stream2_frame_error
  obtain ⟨lb, tb, hlb, pb, rb, gb⟩ := isr_branch_none_spec
    (isr_branch DMA_Stream2_frame_error none m) DMA_Stream2_direct_mode_error
  obtain ⟨lc, tc, hlc, pc, rc, gc⟩ := isr_branch_none_spec
    (isr_branch DMA_Stream2_direct_mode_error none (isr_branch DMA_Stream2_frame_error none m))
    DMA_Stream2_transfer_error
  have hflag : (isr_branch DMA_Stream2_transfer_error none (isr_branch
      DMA_Stream2_direct_mode_error none (isr_branch DMA_Stream2_frame_error none m))).regs
      (Reg.LISR DMA_typedef_t.DMA2) &&& DMA_Stream2_transfer_complete =
      m.regs (Reg.LISR DMA_typedef_t.DMA2) &&& DMA_Stream2_transfer_complete := by
    rw [gc _ (by decide), gb _ (by decide), ga _ (by decide)]
  have hcr1 : (isr_branch DMA_Stream2_transfer_error none (isr_branch
      DMA_Stream2_direct_mode_error none (isr_branch DMA_Stream2_frame_error none m))).regs
      Reg.SPI1_CR1 = m.regs Reg.SPI1_CR1 := by
    rw [rc _ (by simp), rb _ (by simp), ra _ (by simp)]
  obtain ⟨le, te, hle, pe, re, -⟩ := isr_branch_none_spec
    (isr_branch DMA_Stream2_transfer_complete (some dma2_stream2_tc)
      (isr_branch DMA_Stream2_transfer_error none (isr_branch DMA_Stream2_direct_mode_error none
        (isr_branch DMA_Stream2_frame_error none m)))) DMA_Stream2_half_transfer
  have hisr : dma2_stream2_isr ili9341_callbacks m =
      isr_branch DMA_Stream2_half_transfer none
        (isr_branch DMA_Stream2_transfer_complete (some dma2_stream2_tc)
          (isr_branch DMA_Stream2_transfer_error none (isr_branch DMA_Stream2_direct_mode_error
            none (isr_branch DMA_Stream2_frame_error none m)))) := rfl
  rw [hisr]
  refine ⟨la ++ lb ++ lc, le, ?_, ?_, ?_⟩
  · intro e he
    simp only [List.mem_append] at he
    rcases he with ((he | he) | he) | he
    · exact ⟨_, hla e he⟩
    · exact ⟨_, hlb e he⟩
    · exact ⟨_, hlc e he⟩
    · exact ⟨_, hle e he⟩
  · intro h
    rw [← hflag] at h
    rw [te, isr_branch_tc _ h, profile_switch_trace]
    simp only [io_pin_set_trace, io_pin_set_regs, reg_write_trace, reg_write_regs_LIFCR, tc, tb, ta,
      List.append_assoc, List.cons_append, List.nil_append]
    rw [Function.update_noteq (by simp), hcr1]
  · intro h
    rw [← hflag] at h
    have hidle := isr_branch_idle _ DMA_Stream2_transfer_complete (some dma2_stream2_tc) h
    rw [hidle] at te pe re
    refine ⟨?_, ?_, ?_⟩
    · rw [hidle, te, tc, tb, ta]; simp only [List.append_assoc]
    · rw [hidle, pe, pc, pb, pa]
    · intro r hr
      rw [hidle, re r hr, rc r hr, rb r hr, ra r hr]

/-- A branch whose callback is compiled in hands it the remaining-element count. -/
theorem isr_branch_some (m : Machine) (flag : Nat) (f : Nat → Machine → Machine)
    (h : m.regs (Reg.LISR DMA_typedef_t.DMA2) &&& flag ≠ 0) :
    isr_branch flag (some f) m =
      f (u16 (m.regs (Reg.NDTR DMA_typedef_t.DMA2 2)))
        (reg_write (Reg.LIFCR DMA_typedef_t.DMA2) flag m) := by
  simp [isr_branch, isr_callback, reg_read, h, Function.update_apply]

theorem filter_is_wait_flag_clears (l : List Event)
    (h : ∀ e ∈ l, ∃ f, e = Event.write (Reg.LIFCR DMA_typedef_t.DMA2) f) :
    l.filter is_wait = [] := by
  rw [List.filter_eq_nil_iff]
  intro e he
  obtain ⟨f, rfl⟩ := h e he
  simp [is_wait]

/-- The error flags are clear when the handler returns. -/
theorem ili9341_isr_error_flags_clear (m : Machine) :
    (dma2_stream2_isr ili9341_callbacks m).regs (Reg.LISR DMA_typedef_t.DMA2) &&&
        DMA_Stream2_frame_error = 0 ∧
    (dma2_stream2_isr ili9341_callbacks m).regs (Reg.LISR DMA_typedef_t.DMA2) &&&
        DMA_Stream2_direct_mode_error = 0 ∧
    (dma2_stream2_isr ili9341_callbacks m).regs (Reg.LISR DMA_typedef_t.DMA2) &&&
        DMA_Stream2_transfer_error = 0 := by
  have n1 : (none : Option (Nat → Machine → Machine)) = none ∨
      (none : Option (Nat → Machine → Machine)) = some dma2_stream2_tc := Or.inl rfl
  have n2 : some dma2_stream2_tc = none ∨ some dma2_stream2_tc = some dma2_stream2_tc :=
    Or.inr rfl
  exact ⟨isr_branch_keeps_clear _ _ _ _ n1 (isr_branch_keeps_clear _ _ _ _ n2
      (isr_branch_keeps_clear _ _ _ _ n1 (isr_branch_keeps_clear _ _ _ _ n1
        (isr_branch_clears _ _ _ n1 (by decide))))),
    isr_branch_keeps_clear _ _ _ _ n1 (isr_branch_keeps_clear _ _ _ _ n2
      (isr_branch_keeps_clear _ _ _ _ n1 (isr_branch_clears _ _ _ n1 (by decide)))),
    isr_branch_keeps_clear _ _ _ _ n1 (isr_branch_keeps_clear _ _ _ _ n2
      (isr_branch_clears _ _ _ n1 (by decide)))⟩

/-! ## The handler block by block -/

theorem flag_clear_events_congr (a b f : Nat) (h : a &&& f = b &&& f) :
    flag_clear_events a f = flag_clear_events b f := by
  simp [flag_clear_events, h]

/-- The accesses of a block whose callback is compiled out. -/
theorem isr_branch_none_trace (m : Machine) (f : Nat) :
    (isr_branch f none m).trace =
      m.trace ++ flag_clear_events (m.regs (Reg.LISR DMA_typedef_t.DMA2)) f := by
  by_cases h : m.regs (Reg.LISR DMA_typedef_t.DMA2) &&& f = 0
  · rw [isr_branch_idle m f none h]; simp [flag_clear_events, h]
  · rw [isr_branch_none m f h]; simp [flag_clear_events, h]

/-- The accesses of the transfer-complete block as the display driver builds it. -/
theorem isr_branch_tc_trace (m : Machine) :
    (isr_branch DMA_Stream2_transfer_complete (some dma2_stream2_tc) m).trace =
      m.trace ++ (if m.regs (Reg.LISR DMA_typedef_t.DMA2) &&& DMA_Stream2_transfer_complete ≠ 0
        then Event.write (Reg.LIFCR DMA_typedef_t.DMA2) DMA_Stream2_transfer_complete ::
          Event.pin_set ILI9341_GPIO_PORT ILI9341_CS_PIN ::
            profile_switch_events (m.regs Reg.SPI1_CR1) ILI9341_SPI_FEATURES_CMD
        else []) := by
  by_cases h : m.regs (Reg.LISR DMA_typedef_t.DMA2) &&& DMA_Stream2_transfer_complete = 0
  · rw [isr_branch_idle m _ _ h]; simp [h]
  · rw [isr_branch_tc m h, profile_switch_trace]
    simp only [io_pin_set_trace, io_pin_set_regs, reg_write_trace, reg_write_regs_LIFCR,
      List.append_assoc, List.cons_append, List.nil_append, ne_eq, h, not_false_eq_true, if_true]
    rw [Function.update_noteq (by simp)]

/-- The transfer-complete block leaves the half-transfer flag as it was. -/
theorem isr_branch_tc_keeps_ht (m : Machine) :
    (isr_branch DMA_Stream2_transfer_complete (some dma2_stream2_tc) m).regs
        (Reg.LISR DMA_typedef_t.DMA2) &&& DMA_Stream2_half_transfer =
      m.regs (Reg.LISR DMA_typedef_t.DMA2) &&& DMA_Stream2_half_transfer := by
  by_cases h : m.regs (Reg.LISR DMA_typedef_t.DMA2) &&& DMA_Stream2_transfer_complete = 0
  · rw [isr_branch_idle m _ _ h]
  · rw [isr_branch_tc m h, profile_switch_regs _ _ _ (by simp)]
    simp [and_bit_not32_other _ _ _ (show bit_not32 DMA_Stream2_transfer_complete &&&
      DMA_Stream2_half_transfer = DMA_Stream2_half_transfer by decide)]

/-- All accesses of the handler as the display driver builds it, for every entry state. -/
theorem ili9341_isr_trace (m : Machine) :
    (dma2_stream2_isr ili9341_callbacks m).trace =
      m.trace ++ ili9341_isr_events (m.regs (Reg.LISR DMA_typedef_t.DMA2))
        (m.regs Reg.SPI1_CR1) := by
  obtain ⟨la, -, -, -, ra, ga⟩ := isr_branch_none_spec m DMA_Stream2_frame_error
  obtain ⟨lb, -, -, -, rb, gb⟩ := isr_branch_none_spec
    (isr_branch DMA_Stream2_frame_error none m) DMA_Stream2_direct_mode_error
  obtain ⟨lc, -, -, -, rc, gc⟩ := isr_branch_none_spec
    (isr_branch DMA_Stream2_direct_mode_error none (isr_branch DMA_Stream2_frame_error none m))
    DMA_Stream2_transfer_error
  have hisr : dma2_stream2_isr ili9341_callbacks m =
      isr_branch DMA_Stream2_half_transfer none
        (isr_branch DMA_Stream2_transfer_complete (some dma2_stream2_tc)
          (isr_branch DMA_Stream2_transfer_error none (isr_branch DMA_Stream2_direct_mode_error
            none (isr_branch DMA_Stream2_frame_error none m)))) := rfl
  rw [hisr, isr_branch_none_trace, isr_branch_tc_trace, isr_branch_none_trace,
    isr_branch_none_trace, isr_branch_none_trace]
  rw [flag_clear_events_congr _ (m.regs (Reg.LISR DMA_typedef_t.DMA2)) DMA_Stream2_half_transfer
      (by rw [isr_branch_tc_keeps_ht, gc _ (by decide), gb _ (by decide), ga _ (by decide)]),
    flag_clear_events_congr _ (m.regs (Reg.LISR DMA_typedef_t.DMA2)) DMA_Stream2_transfer_error
      (by rw [gb _ (by decide), ga _ (by decide)]),
    flag_clear_events_congr _ (m.regs (Reg.LISR DMA_typedef_t.DMA2))
      DMA_Stream2_direct_mode_error (by rw [ga _ (by decide)]),
    gc _ (by decide), gb _ (by decide), ga _ (by decide),
    rc _ (by simp), rb _ (by simp), ra _ (by simp)]
  simp only [ili9341_isr_events, List.append_assoc]

theorem flag_clear_events_count (lisr g f : Nat) :
    (flag_clear_events lisr g).count (Event.write (Reg.LIFCR DMA_typedef_t.DMA2) f) =
      if lisr &&& g ≠ 0 ∧ g = f then 1 else 0 := by
  unfold flag_clear_events
  by_cases h : lisr &&& g = 0
  · simp [h]
  · by_cases hg : g = f
    · subst hg; simp [h]
    · simp [h, hg, List.count_cons]

/-- The accesses of `dma2_stream2_tc` hold no flag-clear store but its own. -/
theorem teardown_events_count (lisr cr1 f : Nat) (hf : f ≠ DMA_Stream2_transfer_complete) :
    (if lisr &&& DMA_Stream2_transfer_complete ≠ 0 then
        Event.write (Reg.LIFCR DMA_typedef_t.DMA2) DMA_Stream2_transfer_complete ::
          Event.pin_set ILI9341_GPIO_PORT ILI9341_CS_PIN ::
            profile_switch_events cr1 ILI9341_SPI_FEATURES_CMD
      else []).count (Event.write (Reg.LIFCR DMA_typedef_t.DMA2) f) = 0 := by
  rw [List.count_eq_zero]
  split_ifs
  · simp [profile_switch_events, hf]
  · simp

/-- The flag-clear store of an error flag that is set on entry occurs exactly once among
the accesses of the handler. -/
theorem ili9341_isr_events_count (lisr cr1 flag : Nat)
    (hflag : flag = DMA_Stream2_frame_error ∨ flag = DMA_Stream2_direct_mode_error ∨
      flag = DMA_Stream2_transfer_error)
    (hset : lisr &&& flag ≠ 0) :
    (ili9341_isr_events lisr cr1).count (Event.write (Reg.LIFCR DMA_typedef_t.DMA2) flag) = 1 := by
  have d1 : DMA_Stream2_frame_error ≠ DMA_Stream2_direct_mode_error := by decide
  have d2 : DMA_Stream2_frame_error ≠ DMA_Stream2_transfer_error := by decide
  have d3 : DMA_Stream2_frame_error ≠ DMA_Stream2_transfer_complete := by decide
  have d4 : DMA_Stream2_frame_error ≠ DMA_Stream2_half_transfer := by decide
  have d5 : DMA_Stream2_direct_mode_error ≠ DMA_Stream2_transfer_error := by decide
  have d6 : DMA_Stream2_direct_mode_error ≠ DMA_Stream2_transfer_complete := by decide
  have d7 : DMA_Stream2_direct_mode_error ≠ DMA_Stream2_half_transfer := by decide
  have d8 : DMA_Stream2_transfer_error ≠ DMA_Stream2_transfer_complete := by decide
  have d9 : DMA_Stream2_transfer_error ≠ DMA_Stream2_half_transfer := by decide
  unfold ili9341_isr_events
  simp only [List.count_append, flag_clear_events_count]
  rcases hflag with rfl | rfl | rfl
  · rw [teardown_events_count _ _ _ d3]
    simp [hset, d1.symm, d2.symm, d4.symm]
  · rw [teardown_events_count _ _ _ d6]
    simp [hset, d1, d5.symm, d7.symm]
  · rw [teardown_events_count _ _ _ d8]
    simp [hset, d2, d5, d9.symm]

/-! ## Claims about the handler's error path and its waits -/

/-- C16, the claim as stated fails (`dma2_stream2_isr`, lines 248-268, built with only
`CRAP_DMA_DMA2_STREAM2_USE_TC`): entered with the frame-error flag of stream 2 set, the
handler returns, and all it has done is the one store that clears the flag; no callback
is compiled in for the flag and none receives the remaining-element count. -/
theorem C16_frame_error_is_only_cleared :
    Machine.frame_error.regs (Reg.LISR DMA_typedef_t.DMA2) &&& DMA_Stream2_frame_error ≠ 0 ∧
    ili9341_callbacks.fe = none ∧
    dma2_stream2_isr ili9341_callbacks Machine.frame_error =
      reg_write (Reg.LIFCR DMA_typedef_t.DMA2) DMA_Stream2_frame_error Machine.frame_error ∧
    (dma2_stream2_isr ili9341_callbacks Machine.frame_error).trace =
      [Event.write (Reg.LIFCR DMA_typedef_t.DMA2) DMA_Stream2_frame_error] := by
  have h0 : Machine.frame_error.regs (Reg.LISR DMA_typedef_t.DMA2) &&&
      DMA_Stream2_frame_error ≠ 0 := by decide
  have hisr : dma2_stream2_isr ili9341_callbacks Machine.frame_error =
      isr_branch DMA_Stream2_half_transfer none
        (isr_branch DMA_Stream2_transfer_complete (some dma2_stream2_tc)
          (isr_branch DMA_Stream2_transfer_error none (isr_branch DMA_Stream2_direct_mode_error
            none (isr_branch DMA_Stream2_frame_error none Machine.frame_error)))) := rfl
  have heq : dma2_stream2_isr ili9341_callbacks Machine.frame_error =
      reg_write (Reg.LIFCR DMA_typedef_t.DMA2) DMA_Stream2_frame_error Machine.frame_error := by
    rw [hisr, isr_branch_none _ _ h0, isr_branch_idle _ _ _ (by decide),
      isr_branch_idle _ _ _ (by decide), isr_branch_idle _ _ _ (by decide),
      isr_branch_idle _ _ _ (by decide)]
  refine ⟨h0, rfl, heq, ?_⟩
  rw [heq]
  rfl

/-- C16 as amended (`dma2_stream2_isr` as built by the display driver), for every entry
state, the transfer-complete flag set or not: when the frame-error, direct-mode-error or
transfer-error flag is set on entry, the callbacks for the three flags are compiled out,
the accesses of the handler are exactly those of `ili9341_isr_events` (one flag-clear
store for each flag that is set, and the accesses of `dma2_stream2_tc` when the
transfer-complete flag is set), the store that clears the error flag occurs exactly once
among them, and the flag is clear when the handler returns. A block whose callback is
compiled out is the flag-clear store alone; a block whose callback is compiled in calls
it with the remaining-element count `NDTR`. With the transfer-complete flag clear, pins
and all registers but the flag status register are as before. -/
theorem C16_error_flags_are_only_cleared (m : Machine) (flag : Nat)
    (hflag : flag = DMA_Stream2_frame_error ∨ flag = DMA_Stream2_direct_mode_error ∨
      flag = DMA_Stream2_transfer_error)
    (hset : m.regs (Reg.LISR DMA_typedef_t.DMA2) &&& flag ≠ 0) :
    (ili9341_callbacks.fe = none ∧ ili9341_callbacks.dme = none ∧ ili9341_callbacks.te = none) ∧
    (dma2_stream2_isr ili9341_callbacks m).trace =
      m.trace ++ ili9341_isr_events (m.regs (Reg.LISR DMA_typedef_t.DMA2))
        (m.regs Reg.SPI1_CR1) ∧
    (ili9341_isr_events (m.regs (Reg.LISR DMA_typedef_t.DMA2)) (m.regs Reg.SPI1_CR1)).count
      (Event.write (Reg.LIFCR DMA_typedef_t.DMA2) flag) = 1 ∧
    (dma2_stream2_isr ili9341_callbacks m).regs (Reg.LISR DMA_typedef_t.DMA2) &&& flag = 0 ∧
    (∀ (f : Nat) (m2 : Machine), m2.regs (Reg.LISR DMA_typedef_t.DMA2) &&& f ≠ 0 →
      isr_branch f none m2 = reg_write (Reg.LIFCR DMA_typedef_t.DMA2) f m2) ∧
    (∀ (f : Nat) (cb : Nat → Machine → Machine) (m2 : Machine),
      m2.regs (Reg.LISR DMA_typedef_t.DMA2) &&& f ≠ 0 →
      isr_branch f (some cb) m2 =
        cb (u16 (m2.regs (Reg.NDTR DMA_typedef_t.DMA2 2)))
          (reg_write (Reg.LIFCR DMA_typedef_t.DMA2) f m2)) ∧
    (m.regs (Reg.LISR DMA_typedef_t.DMA2) &&& DMA_Stream2_transfer_complete = 0 →
      (dma2_stream2_isr ili9341_callbacks m).pins = m.pins ∧
      ∀ r, r ≠ Reg.LISR DMA_typedef_t.DMA2 →
        (dma2_stream2_isr ili9341_callbacks m).regs r = m.regs r) := by
  obtain ⟨e1, e2, e3⟩ := ili9341_isr_error_flags_clear m
  obtain ⟨pre, post, -, -, hclear⟩ := ili9341_isr_spec m
  refine ⟨⟨rfl, rfl, rfl⟩, ili9341_isr_trace m, ili9341_isr_events_count _ _ flag hflag hset, ?_,
    fun f m2 h => isr_branch_none m2 f h, fun f cb m2 h => isr_branch_some m2 f cb h,
    fun htc => (hclear htc).2⟩
  rcases hflag with rfl | rfl | rfl
  · exact e1
  · exact e2
  · exact e3

/-- The handler entered at the end of a transfer with the frame-error flag raised as
well: the one store for the frame error, then the teardown of the transfer. -/
theorem C16_error_flags_are_only_cleared_witness :
    Machine.complete_with_frame_error.regs (Reg.LISR DMA_typedef_t.DMA2) &&&
        DMA_Stream2_frame_error ≠ 0 ∧
    Machine.complete_with_frame_error.regs (Reg.LISR DMA_typedef_t.DMA2) &&&
        DMA_Stream2_transfer_complete ≠ 0 ∧
    (dma2_stream2_isr ili9341_callbacks Machine.complete_with_frame_error).trace =
      Event.write (Reg.LIFCR DMA_typedef_t.DMA2) DMA_Stream2_frame_error ::
        Event.write (Reg.LIFCR DMA_typedef_t.DMA2) DMA_Stream2_transfer_complete ::
          Event.pin_set ILI9341_GPIO_PORT ILI9341_CS_PIN ::
            profile_switch_events 0 ILI9341_SPI_FEATURES_CMD ∧
    (dma2_stream2_isr ili9341_callbacks Machine.complete_with_frame_error).regs
        (Reg.LISR DMA_typedef_t.DMA2) &&& DMA_Stream2_frame_error = 0 := by
  have h := C16_error_flags_are_only_cleared Machine.complete_with_frame_error
    DMA_Stream2_frame_error (Or.inl rfl) (by decide)
  exact ⟨by decide, by decide, h.2.1.trans (by decide), h.2.2.2.1⟩

/-- C20, the claim as stated fails (`dma2_stream2_tc`, `spi_disable`, `spi_enable`):
entered at the end of a transfer, the handler runs four busy-wait loops, on the SPI busy
flag and on the SPI enable bit. -/
theorem C20_handler_busy_waits :
    (dma2_stream2_isr ili9341_callbacks Machine.transfer_complete).trace.filter is_wait =
      [Event.wait Reg.SPI1_SR SPI_SR_BSY_MASK false,
       Event.wait Reg.SPI1_CR1 SPI_CR1_SPIEN_MASK false,
       Event.wait Reg.SPI1_CR1 SPI_CR1_SPIEN_MASK true,
       Event.wait Reg.SPI1_SR SPI_SR_BSY_MASK false] := by
  obtain ⟨pre, post, hw, hset, -⟩ := ili9341_isr_spec Machine.transfer_complete
  have hpre : pre.filter is_wait = [] :=
    filter_is_wait_flag_clears pre (fun e he => hw e (List.mem_append_left _ he))
  have hpost : post.filter is_wait = [] :=
    filter_is_wait_flag_clears post (fun e he => hw e (List.mem_append_right _ he))
  rw [hset (by decide)]
  simp only [List.filter_append, hpre, hpost]
  simp [profile_switch_events, is_wait, Machine.transfer_complete]

/-- C20 as amended (`dma2_stream2_isr` as built by the display driver): the handler
busy-waits exactly when it tears a transfer down. Entered with the transfer-complete
flag set, it runs, through `dma2_stream2_tc`, the loops of `spi_disable` and
`spi_enable`: SPI busy flag, SPI enable bit clear, SPI enable bit set, SPI busy flag.
Entered with the flag clear it runs no wait loop; the error and half-transfer branches
never wait. -/
theorem C20_handler_waits_only_in_teardown (m : Machine) :
    (reg_read (Reg.LISR DMA_typedef_t.DMA2) m &&& DMA_Stream2_transfer_complete ≠ 0 →
      ((dma2_stream2_isr ili9341_callbacks m).trace.drop m.trace.length).filter is_wait =
        [Event.wait Reg.SPI1_SR SPI_SR_BSY_MASK false,
         Event.wait Reg.SPI1_CR1 SPI_CR1_SPIEN_MASK false,
         Event.wait Reg.SPI1_CR1 SPI_CR1_SPIEN_MASK true,
         Event.wait Reg.SPI1_SR SPI_SR_BSY_MASK false]) ∧
    (reg_read (Reg.LISR DMA_typedef_t.DMA2) m &&& DMA_Stream2_transfer_complete = 0 →
      ((dma2_stream2_isr ili9341_callbacks m).trace.drop m.trace.length).filter is_wait = []) := by
  obtain ⟨pre, post, hw, hset, hclear⟩ := ili9341_isr_spec m
  have hpre : pre.filter is_wait = [] :=
    filter_is_wait_flag_clears pre (fun e he => hw e (List.mem_append_left _ he))
  have hpost : post.filter is_wait = [] :=
    filter_is_wait_flag_clears post (fun e he => hw e (List.mem_append_right _ he))
  constructor
  · intro h
    rw [hset h, List.append_assoc, List.append_assoc, List.drop_left]
    simp only [List.filter_append, hpre, hpost]
    simp [profile_switch_events, is_wait]
  · intro h
    rw [(hclear h).1, List.append_assoc, List.drop_left]
    simp only [List.filter_append, hpre, hpost, List.append_nil]

theorem C20_handler_waits_only_in_teardown_witness :
    ((dma2_stream2_isr ili9341_callbacks Machine.frame_error).trace.drop
      Machine.frame_error.trace.length).filter is_wait = [] :=
  (C20_handler_waits_only_in_teardown Machine.frame_error).2 (by decide)

/-! ## The enable bit at the stores to the SPI control registers -/

theorem ctrl_writes_cmd (spe : Bool) (c : Nat) (rest : List Event) :
    ctrl_writes_with_spe spe (cmd_events c ++ rest) = ctrl_writes_with_spe spe rest := by
  simp [cmd_events, ctrl_writes_with_spe]

theorem ctrl_writes_data (spe : Bool) (c : Nat) (rest : List Event) :
    ctrl_writes_with_spe spe (data_events c ++ rest) = ctrl_writes_with_spe spe rest := by
  simp [data_events, ctrl_writes_with_spe]

theorem ctrl_writes_nvic (spe : Bool) (i : NVIC_irq) (rest : List Event) :
    ctrl_writes_with_spe spe (Event.nvic_enable i :: rest) = ctrl_writes_with_spe spe rest := by
  simp [ctrl_writes_with_spe]

/-- The window commands store to no SPI control register. -/
theorem ctrl_writes_window (spe : Bool) (xs ys xe ye : Nat) (rest : List Event) :
    ctrl_writes_with_spe spe (window_events xs ys xe ye ++ rest) =
      ctrl_writes_with_spe spe rest := by
  simp only [window_events, List.cons_append, List.append_assoc, ctrl_writes_nvic,
    ctrl_writes_cmd, ctrl_writes_data]

/-- The five stores to the SPI control registers made by the body of the two entry points,
for every window, buffer and initial state: the store of `spi_disable`, the two stores of
`spi_setup` with the enable bit clear, the store of `spi_enable`, and the store of
`spi_enable_misc` with the enable bit set. -/
theorem ctrl_writes_body (m : Machine) (spe : Bool) (fb xs ys xe ye n : Nat) :
    ctrl_writes_with_spe spe
        ((ili9341_fb_dma_body fb xs ys xe ye n m).trace.drop m.trace.length) =
      [(Reg.SPI1_CR1, m.regs Reg.SPI1_CR1 &&& bit_not32 SPI_CR1_SPIEN_MASK, spe),
       (Reg.SPI1_CR1, ILI9341_SPI_FEATURES_DMA, false),
       (Reg.SPI1_CR2, 0, false),
       (Reg.SPI1_CR1, ILI9341_SPI_FEATURES_DMA ||| SPI_CR1_SPIEN_MASK, false),
       (Reg.SPI1_CR2, SPI_MISC_ENABLE_DMA_TX, true)] := by
  have h1 : (m.regs Reg.SPI1_CR1 &&& bit_not32 SPI_CR1_SPIEN_MASK) &&& SPI_CR1_SPIEN_MASK = 0 := by
    rw [Nat.and_assoc]
    have : bit_not32 SPI_CR1_SPIEN_MASK &&& SPI_CR1_SPIEN_MASK = 0 := by decide
    rw [this, Nat.and_zero]
  have h2 : ILI9341_SPI_FEATURES_DMA &&& SPI_CR1_SPIEN_MASK = 0 := by decide
  have h3 : (ILI9341_SPI_FEATURES_DMA ||| SPI_CR1_SPIEN_MASK) &&& SPI_CR1_SPIEN_MASK ≠ 0 := by
    decide
  have h4 : (0 ||| SPI_MISC_ENABLE_DMA_TX) = SPI_MISC_ENABLE_DMA_TX := by decide
  rw [ili9341_fb_dma_body_trace, List.drop_left, ctrl_writes_window]
  simp [profile_switch_events, dma_arm_events, ctrl_writes_with_spe, h1, h2, h3, h4]

/-! ## Pictures too large for one transfer -/

/-- An ordered window inside the panel with 65535 pixels or more stops in the assertion of
line 338. -/
theorem fb_dma_fill_too_large (fb xs ys xe ye : Nat) (m : Machine)
    (hx : xs ≤ xe) (hxe : xe < 240) (hy : ys ≤ ye) (hye : ye < 320)
    (hpx : 65535 ≤ (xe - xs + 1) * (ye - ys + 1)) :
    ili9341_fb_dma_fill fb xs ys xe ye m = Outcome.halted 338 m := by
  have hw := u16_span xs xe hx (by omega)
  have hl := u16_span ys ye hy (by omega)
  have hle : (xe - xs + 1) * (ye - ys + 1) ≤ 240 * 320 :=
    Nat.mul_le_mul (by omega) (by omega)
  have hi : i32 (((xe - xs + 1 : Nat) : Int) * ((ye - ys + 1 : Nat) : Int)) =
      (((xe - xs + 1) * (ye - ys + 1) : Nat) : Int) := by
    rw [← Nat.cast_mul]; exact i32_small _ (by omega)
  have c1 : ¬ ((((xe - xs + 1) * (ye - ys + 1) : Nat) : Int) < UINT16_MAX) := by
    unfold UINT16_MAX; omega
  unfold ili9341_fb_dma_fill
  simp only [hw, hl, hi, c1, not_false_eq_true, if_true]

/-- A picture that fits the panel and has 65535 pixels or more stops in the assertion of
line 374. -/
theorem fb_dma_fill_centered_too_large (fb w h : Nat) (m : Machine) (hw : w ≤ 240) (hh : h ≤ 320)
    (hpx : 65535 ≤ w * h) :
    ili9341_fb_dma_fill_centered fb w h m = Outcome.halted 374 m := by
  have hle : w * h ≤ 240 * 320 := Nat.mul_le_mul hw hh
  have hi : i32 ((w : Int) * (h : Int)) = ((w * h : Nat) : Int) := by
    rw [← Nat.cast_mul]; exact i32_small _ (by omega)
  have c1 : ¬ (((w * h : Nat) : Int) < UINT16_MAX) := by
    unfold UINT16_MAX; omega
  unfold ili9341_fb_dma_fill_centered
  simp only [hi, c1, not_false_eq_true, if_true]

/-! ## Claims about the enable bit, the two entry points and the order of a window -/

/-- C21 (`ili9341_spi_start_dma`, lines 153-156, against the comment of `spi_enable_misc`
in `spi.h`, "call this only when spi is disabled"), the code at the calls
`ili9341_fb_dma_fill(fb, 50, 50, 149, 99)` and `ili9341_fb_dma_fill_centered(fb, 240, 240)`:
both return, and of their five stores to the SPI control registers the two of `spi_setup`
are made with the enable bit clear, but the last one, `CR2 |= SPI_MISC_ENABLE_DMA_TX` of
`spi_enable_misc`, is made with the enable bit set: `spi_enable` has run before it, and
the call returns with the enable bit set. -/
theorem C21_misc_write_while_enabled :
    (∃ m1, ili9341_fb_dma_fill 0x20000000 50 50 149 99 Machine.reset = Outcome.returned m1 ∧
      ctrl_writes_with_spe false m1.trace =
        [(Reg.SPI1_CR1, 0, false),
         (Reg.SPI1_CR1, ILI9341_SPI_FEATURES_DMA, false),
         (Reg.SPI1_CR2, 0, false),
         (Reg.SPI1_CR1, ILI9341_SPI_FEATURES_DMA ||| SPI_CR1_SPIEN_MASK, false),
         (Reg.SPI1_CR2, SPI_MISC_ENABLE_DMA_TX, true)] ∧
      m1.regs Reg.SPI1_CR1 &&& SPI_CR1_SPIEN_MASK = SPI_CR1_SPIEN_MASK ∧
      m1.trace.getLast? = some (Event.write Reg.SPI1_CR2 SPI_MISC_ENABLE_DMA_TX)) ∧
    (∃ m1, ili9341_fb_dma_fill_centered 0x20000000 240 240 Machine.reset = Outcome.returned m1 ∧
      ctrl_writes_with_spe false m1.trace =
        [(Reg.SPI1_CR1, 0, false),
         (Reg.SPI1_CR1, ILI9341_SPI_FEATURES_DMA, false),
         (Reg.SPI1_CR2, 0, false),
         (Reg.SPI1_CR1, ILI9341_SPI_FEATURES_DMA ||| SPI_CR1_SPIEN_MASK, false),
         (Reg.SPI1_CR2, SPI_MISC_ENABLE_DMA_TX, true)] ∧
      m1.regs Reg.SPI1_CR1 &&& SPI_CR1_SPIEN_MASK = SPI_CR1_SPIEN_MASK ∧
      m1.trace.getLast? = some (Event.write Reg.SPI1_CR2 SPI_MISC_ENABLE_DMA_TX)) := by
  have hr1 : ili9341_fb_dma_fill 0x20000000 50 50 149 99 Machine.reset =
      Outcome.returned (ili9341_fb_dma_body 0x20000000 50 50 149 99 5000 Machine.reset) :=
    fb_dma_fill_valid 0x20000000 50 50 149 99 Machine.reset (by decide) (by decide) (by decide)
      (by decide) (by decide)
  have hr2 : ili9341_fb_dma_fill_centered 0x20000000 240 240 Machine.reset =
      Outcome.returned (ili9341_fb_dma_body 0x20000000 0 40 239 279 57600 Machine.reset) :=
    fb_dma_fill_centered_valid 0x20000000 240 240 Machine.reset (by decide) (by decide)
      (by decide)
  have hc := fun xs ys xe ye n =>
    ctrl_writes_body Machine.reset false 0x20000000 xs ys xe ye n
  have hreg := fun xs ys xe ye n =>
    (ili9341_fb_dma_body_regs Machine.reset 0x20000000 xs ys xe ye n).1
  have hlast : ∀ xs ys xe ye n,
      (ili9341_fb_dma_body 0x20000000 xs ys xe ye n Machine.reset).trace.getLast? =
        some (Event.write Reg.SPI1_CR2 SPI_MISC_ENABLE_DMA_TX) := by
    intro xs ys xe ye n
    rw [ili9341_fb_dma_body_trace]
    simp [dma_arm_events, List.getLast?_append, SPI_MISC_ENABLE_DMA_TX]
  refine ⟨⟨_, hr1, ?_, ?_, hlast _ _ _ _ _⟩, ⟨_, hr2, ?_, ?_, hlast _ _ _ _ _⟩⟩
  · simpa using hc 50 50 149 99 5000
  · rw [hreg]; decide
  · simpa using hc 0 40 239 279 57600
  · rw [hreg]; decide

/-- C22 (`ili9341_fb_dma_fill`, lines 335-366, and `ili9341_fb_dma_fill_centered`, lines
368-401): for every buffer, every width in 1..240 and every height in 1..320, the centered
call and the explicit call on the window xs = (240-width)>>1, ys = (320-height)>>1,
x_end = xs+width-1, y_end = ys+height-1 fault on the same inputs (those of 65535 pixels or
more, each in its size assertion and in the state it was called in) and otherwise return
the same machine: the same sequence of accesses, the same registers and the same pins. -/
theorem C22_entry_points_agree (fb w h : Nat) (m : Machine)
    (hw1 : 1 ≤ w) (hw : w ≤ 240) (hh1 : 1 ≤ h) (hh : h ≤ 320) :
    (65535 ≤ w * h ∧
      ili9341_fb_dma_fill_centered fb w h m = Outcome.halted 374 m ∧
      ili9341_fb_dma_fill fb ((240 - w) >>> 1) ((320 - h) >>> 1)
        ((240 - w) >>> 1 + w - 1) ((320 - h) >>> 1 + h - 1) m = Outcome.halted 338 m) ∨
    (w * h < 65535 ∧ ∃ m1,
      ili9341_fb_dma_fill_centered fb w h m = Outcome.returned m1 ∧
      ili9341_fb_dma_fill fb ((240 - w) >>> 1) ((320 - h) >>> 1)
        ((240 - w) >>> 1 + w - 1) ((320 - h) >>> 1 + h - 1) m = Outcome.returned m1 ∧
      m1.trace = m.trace ++ (window_events ((240 - w) >>> 1) ((320 - h) >>> 1)
          ((240 - w) >>> 1 + w - 1) ((320 - h) >>> 1 + h - 1) ++
        (profile_switch_events (m.regs Reg.SPI1_CR1) ILI9341_SPI_FEATURES_DMA ++
          dma_arm_events (m.regs (Reg.CR ILI9341_DMA ILI9341_DMA_STREAM)) fb (w * h)))) := by
  have sx : (240 - w) >>> 1 = (240 - w) / 2 := by rw [Nat.shiftRight_eq_div_pow]
  have sy : (320 - h) >>> 1 = (320 - h) / 2 := by rw [Nat.shiftRight_eq_div_pow]
  rw [sx, sy]
  have ex : (240 - w) / 2 + w - 1 - (240 - w) / 2 + 1 = w := by omega
  have ey : (320 - h) / 2 + h - 1 - (320 - h) / 2 + 1 = h := by omega
  by_cases hpx : w * h < 65535
  · right
    refine ⟨hpx, _, fb_dma_fill_centered_valid fb w h m hw hh hpx, ?_,
      ili9341_fb_dma_body_trace m fb _ _ _ _ _⟩
    have hv := fb_dma_fill_valid fb ((240 - w) / 2) ((320 - h) / 2) ((240 - w) / 2 + w - 1)
      ((320 - h) / 2 + h - 1) m (by omega) (by omega) (by omega) (by omega)
      (by rw [ex, ey]; omega)
    rw [ex, ey] at hv
    exact hv
  · left
    refine ⟨by omega, fb_dma_fill_centered_too_large fb w h m hw hh (by omega), ?_⟩
    exact fb_dma_fill_too_large fb _ _ _ _ m (by omega) (by omega) (by omega) (by omega)
      (by rw [ex, ey]; omega)

/-- The 240x240 picture of `main.c` has 57600 pixels: both calls return, and they return
the same machine. -/
theorem C22_entry_points_agree_witness :
    240 * 240 < 65535 ∧ ∃ m1,
      ili9341_fb_dma_fill_centered 0x20000000 240 240 Machine.reset = Outcome.returned m1 ∧
      ili9341_fb_dma_fill 0x20000000 0 40 239 279 Machine.reset = Outcome.returned m1 :=
  (C22_entry_points_agree 0x20000000 240 240 Machine.reset (by decide) (by decide) (by decide)
    (by decide)).elim (fun hl => absurd hl.1 (by decide))
    (fun hr => ⟨hr.1, hr.2.choose, hr.2.choose_spec.1, hr.2.choose_spec.2.1⟩)

/-- C23 (`ili9341_fb_dma_fill`, lines 335-341), the code at the windows (1,0,0,0) and
(3,0,0,0), where x_start > x_end: the 16-bit width (x_end - x_start) + 1 is 0 and 65534,
both assertions pass, the call returns after sending the column range, and the element
count stored to the DMA stream is 0 and 65534. -/
theorem C23_reversed_window_is_accepted :
    (∃ m1, ili9341_fb_dma_fill 0x20000000 1 0 0 0 Machine.reset = Outcome.returned m1 ∧
      ¬ (1 ≤ 0) ∧ u16 (((0 : Nat) : Int) - ((1 : Nat) : Int) + 1) = 0 ∧
      m1.regs (Reg.NDTR ILI9341_DMA ILI9341_DMA_STREAM) = 0 ∧
      dc_bytes false m1.trace =
        [(false, 0x2A), (true, 0), (true, 1), (true, 0), (true, 0),
         (false, 0x2B), (true, 0), (true, 0), (true, 0), (true, 0), (false, 0x2C)]) ∧
    (∃ m1, ili9341_fb_dma_fill 0x20000000 3 0 0 0 Machine.reset = Outcome.returned m1 ∧
      ¬ (3 ≤ 0) ∧ u16 (((0 : Nat) : Int) - ((3 : Nat) : Int) + 1) = 65534 ∧
      m1.regs (Reg.NDTR ILI9341_DMA ILI9341_DMA_STREAM) = 65534 ∧
      dc_bytes false m1.trace =
        [(false, 0x2A), (true, 0), (true, 3), (true, 0), (true, 0),
         (false, 0x2B), (true, 0), (true, 0), (true, 0), (true, 0), (false, 0x2C)]) := by
  have hr1 : ili9341_fb_dma_fill 0x20000000 1 0 0 0 Machine.reset =
      Outcome.returned (ili9341_fb_dma_body 0x20000000 1 0 0 0 0 Machine.reset) := by
    rfl
  have hr2 : ili9341_fb_dma_fill 0x20000000 3 0 0 0 Machine.reset =
      Outcome.returned (ili9341_fb_dma_body 0x20000000 3 0 0 0 65534 Machine.reset) := by
    rfl
  have hb : ∀ xs n, xs < 65536 →
      dc_bytes false (ili9341_fb_dma_body 0x20000000 xs 0 0 0 n Machine.reset).trace =
        [(false, 0x2A), (true, xs >>> 8), (true, xs &&& 0xFF), (true, 0), (true, 0),
         (false, 0x2B), (true, 0), (true, 0), (true, 0), (true, 0), (false, 0x2C)] := by
    intro xs n hxs
    rw [ili9341_fb_dma_body_trace, show Machine.reset.trace = [] from rfl, List.nil_append,
      dc_bytes_window false xs 0 0 0 _ hxs (by decide) (by decide) (by decide),
      dc_bytes_profile_switch, dc_bytes_dma_arm]
    rfl
  refine ⟨⟨_, hr1, by decide, by decide, ?_, ?_⟩, ⟨_, hr2, by decide, by decide, ?_, ?_⟩⟩
  · exact (ili9341_fb_dma_body_regs Machine.reset 0x20000000 1 0 0 0 0).2.2.2.2.1
  · exact hb 1 0 (by decide)
  · exact (ili9341_fb_dma_body_regs Machine.reset 0x20000000 3 0 0 0 65534).2.2.2.2.1
  · exact hb 3 65534 (by decide)

end Badhal
